import Mathlib

/-!
Verification development for the habluetooth advertisement-fusion core.

The Python source (src/habluetooth/base_scanner.py, storage.py, models.py) is
shallowly embedded: Python dicts become association lists (`List (K × V)`)
with Python insertion-order semantics, bytes become `List Nat` with entries
below 256, floating point times become `ℚ`, and object identity tests
(`is` / `is not`) become explicit boolean event fields constrained by
consistency hypotheses (identity implies value equality).
-/

/-- Left-biased choice on options: the value of `a.get(k)` chains used below. -/
def opt_or {α : Type} : Option α → Option α → Option α
  | some v, _ => some v
  | none, b => b

/-- Python `d.get(key)` / `d[key]` on an insertion-ordered dict modelled as an
association list (keys are unique in every dict the source builds). -/
def dlookup {K V : Type} [DecidableEq K] : List (K × V) → K → Option V
  | [], _ => none
  | kv :: rest, key => if kv.1 = key then some kv.2 else dlookup rest key

/-- Model of `_dict_subset(super_dict, sub_dict)` from base_scanner.py:
true when every key/value pair of `sub_dict` appears unchanged in `super_dict`. -/
def dict_subset {K V : Type} [DecidableEq K] [DecidableEq V]
    (super_dict sub_dict : List (K × V)) : Bool :=
  sub_dict.all (fun kv => decide (dlookup super_dict kv.1 = some kv.2))

/-- Python `{**a, **b}` (and in-place `a.update(b)`): keys of `a` in their
order with values overridden by `b`, then the keys only in `b` in order. -/
def dict_update {K V : Type} [DecidableEq K] (a b : List (K × V)) : List (K × V) :=
  a.map (fun kv =>
    match dlookup b kv.1 with
    | some v => (kv.1, v)
    | none => kv)
  ++ b.filter (fun kv => (dlookup a kv.1).isNone)

/-- Python `d[k] = v`: replace in place if the key exists, else append. -/
def dict_set {K V : Type} [DecidableEq K] (d : List (K × V)) (k : K) (v : V) :
    List (K × V) :=
  if (dlookup d k).isSome then
    d.map (fun kv => if kv.1 = k then (k, v) else kv)
  else d ++ [(k, v)]

/-- Python `del d[k]` / `d.pop(k, None)`. -/
def dict_remove {K V : Type} [DecidableEq K] (d : List (K × V)) (k : K) :
    List (K × V) :=
  d.filter (fun kv => decide (kv.1 ≠ k))

/-- Python `s or fallback` for an optional string (`None` and `""` are falsy). -/
def py_str_or (s : Option String) (fallback : String) : String :=
  match s with
  | some v => if v.isEmpty then fallback else v
  | none => fallback

/-- Python truthiness test `not s` for an optional string. -/
def opt_str_falsy : Option String → Bool
  | none => true
  | some s => s.isEmpty

/-- `len` of an optional string; in the source it is only evaluated on truthy
strings, so the `none` value is never observable. -/
def opt_str_len : Option String → Nat
  | none => 0
  | some s => s.length

/-- Mapping a fallible function over a list, failing when any element fails:
models a Python dict comprehension whose body may raise. -/
def option_map_list {α β : Type} (f : α → Option β) : List α → Option (List β)
  | [] => some []
  | x :: rest =>
    match f x with
    | none => none
    | some y =>
      match option_map_list f rest with
      | none => none
      | some ys => some (y :: ys)

/-! ## Data model of the fusion engine (models.py / base_scanner.py)

`BLEDev` models the observable fields of a bleak `BLEDevice` as read by this
library (address, name, details); the write-only deprecated `_rssi` slot is
never read anywhere in the source and is omitted. `SvcInfo` models
`BluetoothServiceInfoBleak` as populated by `_async_on_advertisement` (the
memoized `_advertisement` view, cleared to `None` on every merge, and the
never-assigned `raw` slot are omitted). Monotonic/wall-clock times are `ℚ`. -/

structure BLEDev where
  address : String
  name : Option String
  details : List (String × String)
deriving DecidableEq

structure SvcInfo where
  name : String
  address : String
  rssi : Int
  manufacturer_data : List (Nat × List Nat)
  service_data : List (String × List Nat)
  service_uuids : List String
  source : String
  device : BLEDev
  connectable : Bool
  time : ℚ
  tx_power : Option Int
deriving DecidableEq

/-- The fields of `BaseHaRemoteScanner` that `_async_on_advertisement`,
`_async_expire_devices` and `restore_discovered_devices` read or write. -/
structure ScannerState where
  source : String
  connectable : Bool
  scanner_details : List (String × String)
  expire_seconds : ℚ
  connecting : Int
  scanning : Bool
  last_detection : ℚ
  infos : List (String × SvcInfo)
deriving DecidableEq

/-- One advertisement event as delivered to `_async_on_advertisement`.

The three `_is_prev` booleans embed the Python identity tests
(`prev_name is local_name`, `service_data is not prev_info.service_data`,
`manufacturer_data is not prev_info.manufacturer_data`); theorems that need
it assume `flags_consistent` (identity implies value equality). -/
structure AdvEvent where
  address : String
  rssi : Int
  local_name : Option String
  service_uuids : List String
  service_data : List (String × List Nat)
  manufacturer_data : List (Nat × List Nat)
  tx_power : Option Int
  details : List (String × String)
  time : ℚ
  name_is_prev : Bool
  sd_is_prev : Bool
  md_is_prev : Bool
deriving DecidableEq

/-- Identity flags may only be set when the flagged object really is the
stored one, hence equal in value. -/
def flags_consistent (sc : ScannerState) (e : AdvEvent) : Prop :=
  match dlookup sc.infos e.address with
  | none => True
  | some prev =>
    (e.sd_is_prev = true → e.service_data = prev.service_data) ∧
    (e.md_is_prev = true → e.manufacturer_data = prev.manufacturer_data) ∧
    (e.name_is_prev = true → e.local_name = prev.device.name)

/-- The name merge of `_async_on_advertisement` (lines 452-460): returns the
new `info.name` and the new `info.device.name`. The previous name is kept
when it `is not None` and (it `is` the incoming name, or the incoming name is
falsy, or the previous name is strictly longer). -/
def merged_name_pair (prev_device_name local_name : Option String)
    (name_is_prev : Bool) (address : String) : String × Option String :=
  match prev_device_name with
  | some prev_name =>
    if name_is_prev || opt_str_falsy local_name
        || decide (prev_name.length > opt_str_len local_name) then
      (prev_name, some prev_name)
    else
      (py_str_or local_name address, local_name)
  | none => (py_str_or local_name address, local_name)

/-- The service-UUID merge (lines 462-472). Python takes
`list({*service_uuids, *prev})`, an unordered set; it is modelled by the
deterministic `List.dedup` of the concatenation, which has the same element
set. The `is not` fast-path is implied by the `!=` value test. -/
def merged_uuids (incoming old : List String) : List String :=
  if incoming ≠ [] ∧ incoming ≠ old then (incoming ++ old).dedup
  else if incoming = [] then old
  else incoming

/-- The service-data / manufacturer-data merge (lines 474-503), used for both
maps: if incoming is truthy and is not the previous container, keep the
previous map when the incoming one is a subset of it, else `{**old, **new}`;
if incoming is falsy keep the previous map; else (incoming is the previous
container) store incoming. -/
def merged_map {K V : Type} [DecidableEq K] [DecidableEq V]
    (old incoming : List (K × V)) (is_prev : Bool) : List (K × V) :=
  if incoming ≠ [] ∧ is_prev = false then
    if dict_subset old incoming then old
    else dict_update old incoming
  else if incoming = [] then old
  else incoming

/-- Model of `BaseHaRemoteScanner._async_on_advertisement` (base_scanner.py
lines 402-513). The external-coordinator notification at the end is a
fire-and-forget call with no effect on scanner state and is not modelled. -/
def async_on_advertisement (sc : ScannerState) (e : AdvEvent) : ScannerState :=
  let scanning := decide (sc.connecting = 0)
  match dlookup sc.infos e.address with
  | none =>
    let info : SvcInfo :=
      { name := py_str_or e.local_name e.address
        address := e.address
        rssi := e.rssi
        manufacturer_data := e.manufacturer_data
        service_data := e.service_data
        service_uuids := e.service_uuids
        source := sc.source
        device :=
          { address := e.address
            name := e.local_name
            details := dict_update sc.scanner_details e.details }
        connectable := sc.connectable
        time := e.time
        tx_power := e.tx_power }
    { sc with
        scanning := scanning
        last_detection := e.time
        infos := dict_set sc.infos e.address info }
  | some prev_info =>
    let name_pair := merged_name_pair prev_info.device.name e.local_name
      e.name_is_prev e.address
    let info : SvcInfo :=
      { name := name_pair.1
        address := e.address
        rssi := e.rssi
        manufacturer_data := merged_map prev_info.manufacturer_data
          e.manufacturer_data e.md_is_prev
        service_data := merged_map prev_info.service_data
          e.service_data e.sd_is_prev
        service_uuids := merged_uuids e.service_uuids prev_info.service_uuids
        source := sc.source
        device :=
          { address := prev_info.device.address
            name := name_pair.2
            details := dict_update prev_info.device.details e.details }
        connectable := sc.connectable
        time := e.time
        tx_power := e.tx_power }
    { sc with
        scanning := scanning
        last_detection := e.time
        infos := dict_set sc.infos e.address info }

/-- Model of `BaseHaRemoteScanner._async_expire_devices` (lines 365-374):
drop every record strictly older than the scanner's expiry window. -/
def async_expire_devices (sc : ScannerState) (now : ℚ) : ScannerState :=
  let expired := (sc.infos.filter
    (fun ai => decide (now - ai.2.time > sc.expire_seconds))).map Prod.fst
  { sc with infos := expired.foldl dict_remove sc.infos }

/-! ## Storage codec (storage.py)

Byte strings (`bytes`) are `List Nat` with entries below 256; their lowercase
hex encoding is the list of hex digit values (two per byte); the decimal
string of a manufacturer id is its digit list, most significant first.
Wall-clock/monotonic translation: `_get_monotonic_time_diff()` is sampled
once per (de)serialization call and is passed as the explicit `time_diff`
argument. -/

/-- Python `bytes.hex()`: two hex digits per byte. -/
def hex_encode : List Nat → List Nat
  | [] => []
  | x :: rest => x / 16 :: x % 16 :: hex_encode rest

/-- Python `bytes.fromhex`: fails on an odd-length string or a non-hex digit. -/
def hex_decode : List Nat → Option (List Nat)
  | [] => some []
  | hi :: lo :: rest =>
    if hi < 16 ∧ lo < 16 then (hex_decode rest).map (fun t => (hi * 16 + lo) :: t)
    else none
  | [_] => none

/-- Python `str(n)` for a non-negative int: decimal digits, most significant
first (`0` is `[0]`). -/
def str_of_nat (n : Nat) : List Nat :=
  if n = 0 then [0] else (Nat.digits 10 n).reverse

/-- Python `int(s)` for a decimal digit string: fails on an empty string or a
non-decimal digit. -/
def int_of_str (ds : List Nat) : Option Nat :=
  if ds ≠ [] ∧ ds.all (fun d => decide (d < 10)) then
    some (Nat.ofDigits 10 ds.reverse)
  else none

/-- Serialized `BLEDeviceDict` (`rssi` kept for backward compatibility). -/
structure BLEDeviceDictL where
  address : String
  name : Option String
  rssi : Option Int
  details : List (String × String)
deriving DecidableEq

/-- Serialized `AdvertisementDataDict`: manufacturer keys are decimal digit
strings, byte payloads are hex digit strings. -/
structure AdvertisementDataDictL where
  local_name : Option String
  manufacturer_data : List (List Nat × List Nat)
  service_data : List (String × List Nat)
  service_uuids : List String
  rssi : Int
  tx_power : Option Int
  platform_data : List Int
deriving DecidableEq

/-- Serialized `DiscoveredDeviceDict`. -/
structure DiscoveredDeviceDictL where
  device : BLEDeviceDictL
  advertisement_data : AdvertisementDataDictL
deriving DecidableEq

/-- Serialized `DiscoveredDeviceAdvertisementDataDict` (all fields present). -/
structure DiscoveredDeviceAdvertisementDataDictL where
  connectable : Bool
  expire_seconds : ℚ
  discovered_device_advertisement_datas : List (String × DiscoveredDeviceDictL)
  discovered_device_timestamps : List (String × ℚ)
  discovered_device_raw : List (String × Option (List Nat))
deriving DecidableEq

/-- A raw storage dict as read back from disk: any top-level field may be
missing. `discovered_device_raw` is read with `.get(key, {})`; the other
four raise `KeyError` when absent. -/
structure RawStoreDict where
  connectable : Option Bool
  expire_seconds : Option ℚ
  discovered_device_advertisement_datas :
    Option (List (String × DiscoveredDeviceDictL))
  discovered_device_timestamps : Option (List (String × ℚ))
  discovered_device_raw : Option (List (String × Option (List Nat)))
deriving DecidableEq

/-- Deserialized advertisement data (bleak `AdvertisementData`). -/
structure AdvData where
  local_name : Option String
  manufacturer_data : List (Nat × List Nat)
  service_data : List (String × List Nat)
  service_uuids : List String
  rssi : Int
  tx_power : Option Int
  platform_data : List Int
deriving DecidableEq

/-- In-memory `DiscoveredDeviceAdvertisementData` dataclass. -/
structure DiscoveredDeviceAdvertisementData where
  connectable : Bool
  expire_seconds : ℚ
  discovered_device_advertisement_datas : List (String × BLEDev × AdvData)
  discovered_device_timestamps : List (String × ℚ)
  discovered_device_raw : List (String × Option (List Nat))
deriving DecidableEq

/-- Model of `_ble_device_to_dict` (the legacy `rssi` is re-emitted from the
advertisement). -/
def ble_device_to_dict (d : BLEDev) (a : AdvData) : BLEDeviceDictL :=
  { address := d.address
    name := d.name
    rssi := some a.rssi
    details := d.details }

/-- Model of `_ble_device_from_dict`: `rssi` is popped and discarded. -/
def ble_device_from_dict (d : BLEDeviceDictL) : BLEDev :=
  { address := d.address
    name := d.name
    details := d.details }

/-- Model of `_advertisement_data_to_dict`. -/
def advertisement_data_to_dict (a : AdvData) : AdvertisementDataDictL :=
  { local_name := a.local_name
    manufacturer_data := a.manufacturer_data.map
      (fun p => (str_of_nat p.1, hex_encode p.2))
    service_data := a.service_data.map (fun p => (p.1, hex_encode p.2))
    service_uuids := a.service_uuids
    rssi := a.rssi
    tx_power := a.tx_power
    platform_data := a.platform_data }

/-- One manufacturer-data entry of `_advertisement_data_from_dict`:
`int(manufacturer_id)` and `bytes.fromhex(manufacturer_data)`. -/
def md_entry_from_dict (p : List Nat × List Nat) : Option (Nat × List Nat) :=
  match int_of_str p.1 with
  | none => none
  | some k =>
    match hex_decode p.2 with
    | none => none
    | some b => some (k, b)

/-- One service-data entry of `_advertisement_data_from_dict`. -/
def sd_entry_from_dict (p : String × List Nat) : Option (String × List Nat) :=
  match hex_decode p.2 with
  | none => none
  | some b => some (p.1, b)

/-- Model of `_advertisement_data_from_dict`: any malformed decimal key or
hex payload fails the whole advertisement. -/
def advertisement_data_from_dict (a : AdvertisementDataDictL) : Option AdvData :=
  match option_map_list md_entry_from_dict a.manufacturer_data with
  | none => none
  | some md =>
    match option_map_list sd_entry_from_dict a.service_data with
    | none => none
    | some sd =>
      some
        { local_name := a.local_name
          manufacturer_data := md
          service_data := sd
          service_uuids := a.service_uuids
          rssi := a.rssi
          tx_power := a.tx_power
          platform_data := a.platform_data }

/-- Model of `_serialize_discovered_device_advertisement_datas`. -/
def serialize_discovered_device_advertisement_datas
    (datas : List (String × BLEDev × AdvData)) :
    List (String × DiscoveredDeviceDictL) :=
  datas.map (fun p =>
    (p.1, { device := ble_device_to_dict p.2.1 p.2.2
            advertisement_data := advertisement_data_to_dict p.2.2 }))

/-- One entry of `_deserialize_discovered_device_advertisement_datas`. -/
def device_entry_from_dict (p : String × DiscoveredDeviceDictL) :
    Option (String × BLEDev × AdvData) :=
  match advertisement_data_from_dict p.2.advertisement_data with
  | none => none
  | some adv => some (p.1, ble_device_from_dict p.2.device, adv)

/-- Model of `_deserialize_discovered_device_advertisement_datas`. -/
def deserialize_discovered_device_advertisement_datas
    (datas : List (String × DiscoveredDeviceDictL)) :
    Option (List (String × BLEDev × AdvData)) :=
  option_map_list device_entry_from_dict datas

/-- Model of `_serialize_discovered_device_timestamps`: monotonic to
wall-clock with the offset sampled once for the whole call. -/
def serialize_discovered_device_timestamps (ts : List (String × ℚ))
    (time_diff : ℚ) : List (String × ℚ) :=
  ts.map (fun p => (p.1, p.2 + time_diff))

/-- Model of `_deserialize_discovered_device_timestamps`. -/
def deserialize_discovered_device_timestamps (ts : List (String × ℚ))
    (time_diff : ℚ) : List (String × ℚ) :=
  ts.map (fun p => (p.1, p.2 - time_diff))

/-- Model of `_serialize_discovered_device_raw`. -/
def serialize_discovered_device_raw (raw : List (String × Option (List Nat))) :
    List (String × Option (List Nat)) :=
  raw.map (fun p => (p.1, p.2.map hex_encode))

/-- One entry of `_deserialize_discovered_device_raw`. -/
def raw_entry_from_dict (p : String × Option (List Nat)) :
    Option (String × Option (List Nat)) :=
  match p.2 with
  | none => some (p.1, (none : Option (List Nat)))
  | some s =>
    match hex_decode s with
    | none => none
    | some b => some (p.1, some b)

/-- Model of `_deserialize_discovered_device_raw`: `None` payloads pass
through, hex payloads must decode. -/
def deserialize_discovered_device_raw (raw : List (String × Option (List Nat))) :
    Option (List (String × Option (List Nat))) :=
  option_map_list raw_entry_from_dict raw

/-- Model of `discovered_device_advertisement_data_to_dict`. -/
def discovered_device_advertisement_data_to_dict
    (data : DiscoveredDeviceAdvertisementData) (time_diff : ℚ) :
    DiscoveredDeviceAdvertisementDataDictL :=
  { connectable := data.connectable
    expire_seconds := data.expire_seconds
    discovered_device_advertisement_datas :=
      serialize_discovered_device_advertisement_datas
        data.discovered_device_advertisement_datas
    discovered_device_timestamps :=
      serialize_discovered_device_timestamps
        data.discovered_device_timestamps time_diff
    discovered_device_raw :=
      serialize_discovered_device_raw data.discovered_device_raw }

/-- A freshly written storage dict, reinterpreted as a raw dict read back
from disk (every field present). -/
def to_raw_store_dict (d : DiscoveredDeviceAdvertisementDataDictL) :
    RawStoreDict :=
  { connectable := some d.connectable
    expire_seconds := some d.expire_seconds
    discovered_device_advertisement_datas :=
      some d.discovered_device_advertisement_datas
    discovered_device_timestamps := some d.discovered_device_timestamps
    discovered_device_raw := some d.discovered_device_raw }

/-- Model of `discovered_device_advertisement_data_from_dict`: the broad
`except Exception` turns any missing required field or any payload decoding
error into `None`. -/
def discovered_device_advertisement_data_from_dict (data : RawStoreDict)
    (time_diff : ℚ) : Option DiscoveredDeviceAdvertisementData :=
  match data.connectable with
  | none => none
  | some conn =>
    match data.expire_seconds with
    | none => none
    | some exp =>
      match data.discovered_device_advertisement_datas with
      | none => none
      | some rawdatas =>
        match deserialize_discovered_device_advertisement_datas rawdatas with
        | none => none
        | some datas =>
          match data.discovered_device_timestamps with
          | none => none
          | some rawts =>
            match deserialize_discovered_device_raw
                (data.discovered_device_raw.getD []) with
            | none => none
            | some raw =>
              some
                { connectable := conn
                  expire_seconds := exp
                  discovered_device_advertisement_datas := datas
                  discovered_device_timestamps :=
                    deserialize_discovered_device_timestamps rawts time_diff
                  discovered_device_raw := raw }

/-- The structural errors of a raw storage dict: a required top-level field
is missing, or some manufacturer id / hex payload in it is malformed. -/
def store_dict_error (r : RawStoreDict) : Prop :=
  r.connectable = none ∨ r.expire_seconds = none ∨
  r.discovered_device_advertisement_datas = none ∨
  r.discovered_device_timestamps = none ∨
  (∃ datas, r.discovered_device_advertisement_datas = some datas ∧
    ∃ p ∈ datas,
      (∃ q ∈ p.2.advertisement_data.manufacturer_data,
        int_of_str q.1 = none ∨ hex_decode q.2 = none) ∨
      (∃ q ∈ p.2.advertisement_data.service_data, hex_decode q.2 = none)) ∨
  (∃ raw, r.discovered_device_raw = some raw ∧
    ∃ p ∈ raw, ∃ s, p.2 = some s ∧ hex_decode s = none)

/-- Model of one scanner's pass inside
`expire_stale_scanner_discovered_device_advertisement_data` (storage.py lines
94-121): collect the addresses whose timestamp is expired (`now - t >
expire_seconds`) or in the future (`now - t < 0`), then delete them from the
timestamps, advertisement-data and raw maps. -/
def expire_scanner_data (now : ℚ) (d : DiscoveredDeviceAdvertisementDataDictL) :
    DiscoveredDeviceAdvertisementDataDictL :=
  let expire := (d.discovered_device_timestamps.filter
    (fun p => decide (now - p.2 > d.expire_seconds) || decide (now - p.2 < 0))).map
      Prod.fst
  { d with
      discovered_device_timestamps :=
        expire.foldl dict_remove d.discovered_device_timestamps
      discovered_device_advertisement_datas :=
        expire.foldl dict_remove d.discovered_device_advertisement_datas
      discovered_device_raw := expire.foldl dict_remove d.discovered_device_raw }

/-- Model of `expire_stale_scanner_discovered_device_advertisement_data`:
run the per-scanner pass, then drop every scanner whose timestamp map became
empty. -/
def expire_stale_scanner_discovered_device_advertisement_data (now : ℚ)
    (data_by_scanner : List (String × DiscoveredDeviceAdvertisementDataDictL)) :
    List (String × DiscoveredDeviceAdvertisementDataDictL) :=
  (data_by_scanner.map (fun p => (p.1, expire_scanner_data now p.2))).filter
    (fun p => !p.2.discovered_device_timestamps.isEmpty)

/-! ## Connecting gate (claim C9)

`BaseHaScanner.connecting()` is a context manager: entering increments
`_connecting` and recomputes `scanning = not _connecting`; the `finally`
block guarantees the decrement and recomputation on every exit path,
including exceptions. A use of the gate is therefore one matched
enter/leave pair around an arbitrary (possibly failing) body, and any
program built from properly nested gate uses produces a balanced
enter/leave trace: `GateBalanced` is exactly the language of such traces. -/

structure GateState where
  connecting : Int
  scanning : Bool
deriving DecidableEq

/-- Entering `connecting()`: `self._connecting += 1; self.scanning = not self._connecting`. -/
def gate_enter (s : GateState) : GateState :=
  { connecting := s.connecting + 1, scanning := decide (s.connecting + 1 = 0) }

/-- The `finally` block: `self._connecting -= 1; self.scanning = not self._connecting`. -/
def gate_leave (s : GateState) : GateState :=
  { connecting := s.connecting - 1, scanning := decide (s.connecting - 1 = 0) }

inductive GateOp where
  | enter : GateOp
  | leave : GateOp
deriving DecidableEq

def gate_step (s : GateState) : GateOp → GateState
  | GateOp.enter => gate_enter s
  | GateOp.leave => gate_leave s

def gate_run (s : GateState) : List GateOp → GateState
  | [] => s
  | op :: rest => gate_run (gate_step s op) rest

def gate_states (s : GateState) : List GateOp → List GateState
  | [] => [s]
  | op :: rest => s :: gate_states (gate_step s op) rest

/-- Properly nested (balanced) enter/leave traces: empty, or an enter/leave
pair wrapping a balanced body followed by a balanced continuation. -/
inductive GateBalanced : List GateOp → Prop where
  | nil : GateBalanced []
  | wrap : ∀ {w v : List GateOp}, GateBalanced w → GateBalanced v →
      GateBalanced (GateOp.enter :: w ++ GateOp.leave :: v)

/-! ## Restoring persisted devices (claim C10) -/

/-- One restored `BluetoothServiceInfoBleak` as built by
`restore_discovered_devices` (base_scanner.py lines 266-285): the name falls
back to the address, the `connectable` flag is the scanner's own, the time is
the persisted timestamp. -/
def restored_record (sc : ScannerState) (a : String) (dev : BLEDev)
    (adv : AdvData) (t : ℚ) : SvcInfo :=
  { name := py_str_or dev.name a
    address := a
    rssi := adv.rssi
    manufacturer_data := adv.manufacturer_data
    service_data := adv.service_data
    service_uuids := adv.service_uuids
    source := sc.source
    device := dev
    connectable := sc.connectable
    time := t
    tx_power := adv.tx_power }

/-- The dict comprehension of `restore_discovered_devices` rebuilding
`_previous_service_info` from the snapshot. -/
def restored_infos (sc : ScannerState)
    (history : DiscoveredDeviceAdvertisementData) : List (String × SvcInfo) :=
  history.discovered_device_advertisement_datas.map (fun p =>
    (p.1, restored_record sc p.1 p.2.1 p.2.2
      ((dlookup history.discovered_device_timestamps p.1).getD 0)))

/-- Model of `BaseHaRemoteScanner.restore_discovered_devices`: rebuild the
index from the snapshot, then immediately run one expiry pass
(`_async_expire_devices`, whose ambient monotonic clock is the explicit
`now`) with the scanner's own window. -/
def restore_discovered_devices (sc : ScannerState)
    (history : DiscoveredDeviceAdvertisementData) (now : ℚ) : ScannerState :=
  async_expire_devices { sc with infos := restored_infos sc history } now

/-! ## Concrete inputs for counterexamples and witnesses -/

/-- The service/manufacturer map merge rule as claim C1 words it: keep the
previous map when the PREVIOUS map is a non-strict subset of the INCOMING
one, else take the union with incoming precedence (incoming non-empty and
not the same container assumed). -/
def spec_claimed_map_rule {K V : Type} [DecidableEq K] [DecidableEq V]
    (old incoming : List (K × V)) : List (K × V) :=
  if incoming ≠ [] then
    if dict_subset incoming old then old
    else dict_update old incoming
  else old

/-- The name merge rule as claim C2 words it: keep the previous name exactly
when it is NON-EMPTY and (incoming empty, or shorter, or identical);
otherwise adopt the incoming name with address fallback. -/
def spec_claimed_name_rule (prev_name local_name : Option String)
    (name_is_prev : Bool) (address : String) : String :=
  if (match prev_name with
      | some pn => !pn.isEmpty
      | none => false) = true ∧
     (name_is_prev || opt_str_falsy local_name
       || decide (opt_str_len local_name < opt_str_len prev_name)) = true then
    prev_name.getD ""
  else py_str_or local_name address

def c1_prev : SvcInfo :=
  { name := "Test", address := "AA", rssi := -50, manufacturer_data := []
    service_data := [("u1", [1])], service_uuids := [], source := "S"
    device := { address := "AA", name := some "Test", details := [] }
    connectable := false, time := 0, tx_power := none }

def c1_sc : ScannerState :=
  { source := "S", connectable := false, scanner_details := []
    expire_seconds := 100, connecting := 0, scanning := true
    last_detection := 0, infos := [("AA", c1_prev)] }

def c1_event : AdvEvent :=
  { address := "AA", rssi := -40, local_name := some "Test"
    service_uuids := [], service_data := [("u1", [1]), ("u2", [2])]
    manufacturer_data := [], tx_power := none, details := [], time := 1
    name_is_prev := false, sd_is_prev := false, md_is_prev := false }

def c1_res : SvcInfo :=
  (dlookup (async_on_advertisement c1_sc c1_event).infos "AA").getD c1_prev

def c2_prev : SvcInfo :=
  { name := "AA", address := "AA", rssi := -50, manufacturer_data := []
    service_data := [], service_uuids := [], source := "S"
    device := { address := "AA", name := some "", details := [] }
    connectable := false, time := 0, tx_power := none }

def c2_sc : ScannerState :=
  { source := "S", connectable := false, scanner_details := []
    expire_seconds := 100, connecting := 0, scanning := true
    last_detection := 0, infos := [("AA", c2_prev)] }

def c2_event : AdvEvent :=
  { address := "AA", rssi := -40, local_name := none
    service_uuids := [], service_data := [], manufacturer_data := []
    tx_power := none, details := [], time := 1
    name_is_prev := false, sd_is_prev := false, md_is_prev := false }

def c2w_prev : SvcInfo :=
  { name := "N", address := "AA", rssi := -50, manufacturer_data := []
    service_data := [], service_uuids := [], source := "S"
    device := { address := "AA", name := some "N", details := [] }
    connectable := false, time := 0, tx_power := none }

def c2w_sc : ScannerState :=
  { source := "S", connectable := false, scanner_details := []
    expire_seconds := 100, connecting := 0, scanning := true
    last_detection := 0, infos := [("AA", c2w_prev)] }

def c2w_event : AdvEvent :=
  { address := "AA", rssi := -40, local_name := none
    service_uuids := [], service_data := [], manufacturer_data := []
    tx_power := none, details := [], time := 1
    name_is_prev := false, sd_is_prev := false, md_is_prev := false }

def c2w_res : SvcInfo :=
  (dlookup (async_on_advertisement c2w_sc c2w_event).infos "AA").getD c2w_prev

def c3_prev : SvcInfo :=
  { name := "Test", address := "AA", rssi := -50
    manufacturer_data := [(7, [9])], service_data := [("u1", [1])]
    service_uuids := ["a"], source := "S"
    device := { address := "AA", name := some "Test", details := [] }
    connectable := false, time := 0, tx_power := none }

def c3_sc : ScannerState :=
  { source := "S", connectable := false, scanner_details := []
    expire_seconds := 100, connecting := 0, scanning := true
    last_detection := 0, infos := [("AA", c3_prev)] }

def c3_event : AdvEvent :=
  { address := "AA", rssi := -40, local_name := some ""
    service_uuids := [], service_data := [], manufacturer_data := []
    tx_power := none, details := [], time := 1
    name_is_prev := false, sd_is_prev := false, md_is_prev := false }

def c3_res : SvcInfo :=
  (dlookup (async_on_advertisement c3_sc c3_event).infos "AA").getD c3_prev

def c4_sc : ScannerState :=
  { source := "S", connectable := false, scanner_details := []
    expire_seconds := 100, connecting := 0, scanning := true
    last_detection := 0, infos := [] }

def c4_event : AdvEvent :=
  { address := "AA", rssi := -40, local_name := some ""
    service_uuids := [], service_data := [], manufacturer_data := []
    tx_power := none, details := [], time := 1
    name_is_prev := false, sd_is_prev := false, md_is_prev := false }

def c4w_sc : ScannerState :=
  { source := "S", connectable := false, scanner_details := [("s", "1")]
    expire_seconds := 100, connecting := 0, scanning := true
    last_detection := 0, infos := [] }

def c4w_event : AdvEvent :=
  { address := "AA", rssi := -40, local_name := some "N"
    service_uuids := ["a"], service_data := [("u", [1])]
    manufacturer_data := [(7, [9])], tx_power := some 3
    details := [("d", "v")], time := 1
    name_is_prev := false, sd_is_prev := false, md_is_prev := false }

def c4w_r1 : SvcInfo :=
  (dlookup (async_on_advertisement c4w_sc c4w_event).infos "AA").getD c1_prev

def c4w_r2 : SvcInfo :=
  (dlookup (async_on_advertisement (async_on_advertisement c4w_sc c4w_event)
    c4w_event).infos "AA").getD c1_prev

def c5_data : DiscoveredDeviceAdvertisementData :=
  { connectable := true, expire_seconds := 100
    discovered_device_advertisement_datas :=
      [("AA", ({ address := "AA", name := some "T", details := [("k", "v")] } :
          BLEDev),
        ({ local_name := some "T", manufacturer_data := [(76, [2, 21])]
           service_data := [("u", [0, 255])], service_uuids := ["u"]
           rssi := -50, tx_power := some 5, platform_data := [1] } : AdvData))]
    discovered_device_timestamps := [("AA", 100000)]
    discovered_device_raw := [("AA", some [1, 255]), ("BB", none)] }

def c6_rec : SvcInfo :=
  { name := "Test", address := "AA", rssi := -50, manufacturer_data := []
    service_data := [], service_uuids := [], source := "S"
    device := { address := "AA", name := some "Test", details := [] }
    connectable := false, time := 0, tx_power := none }

def c6_sc : ScannerState :=
  { source := "S", connectable := false, scanner_details := []
    expire_seconds := 100, connecting := 0, scanning := true
    last_detection := 0, infos := [("AA", c6_rec)] }

def c6_d : DiscoveredDeviceAdvertisementDataDictL :=
  { connectable := true, expire_seconds := 100
    discovered_device_advertisement_datas := []
    discovered_device_timestamps := [("AA", 0)]
    discovered_device_raw := [] }

def c7_dd : DiscoveredDeviceDictL :=
  { device := { address := "AA", name := none, rssi := none, details := [] }
    advertisement_data :=
      { local_name := none, manufacturer_data := [], service_data := []
        service_uuids := [], rssi := -50, tx_power := none
        platform_data := [] } }

def c7_future_d : DiscoveredDeviceAdvertisementDataDictL :=
  { connectable := true, expire_seconds := 100
    discovered_device_advertisement_datas := [("AA", c7_dd)]
    discovered_device_timestamps := [("AA", 1001000)]
    discovered_device_raw := [] }

def c7_good_d : DiscoveredDeviceAdvertisementDataDictL :=
  { connectable := true, expire_seconds := 100
    discovered_device_advertisement_datas := [("BB", c7_dd)]
    discovered_device_timestamps := [("BB", 950)]
    discovered_device_raw := [] }

def c7_db : List (String × DiscoveredDeviceAdvertisementDataDictL) :=
  [("good", c7_good_d), ("all_future", c7_future_d)]

def c8_raw : RawStoreDict :=
  { connectable := none, expire_seconds := some 100
    discovered_device_advertisement_datas := some []
    discovered_device_timestamps := some []
    discovered_device_raw := some [] }

def c9_w : List GateOp :=
  [GateOp.enter, GateOp.enter, GateOp.leave, GateOp.leave]

def c9_s : GateState := { connecting := 0, scanning := true }

def c10_dev : BLEDev := { address := "AA", name := some "T", details := [] }

def c10_adv : AdvData :=
  { local_name := some "T", manufacturer_data := [], service_data := []
    service_uuids := [], rssi := -50, tx_power := none, platform_data := [] }

def c10_sc : ScannerState :=
  { source := "S", connectable := true, scanner_details := []
    expire_seconds := 100, connecting := 0, scanning := true
    last_detection := 0, infos := [] }

def c10_history : DiscoveredDeviceAdvertisementData :=
  { connectable := false, expire_seconds := 5
    discovered_device_advertisement_datas :=
      [("AA", c10_dev, c10_adv), ("BB", c10_dev, c10_adv)]
    discovered_device_timestamps := [("AA", 950), ("BB", 0)]
    discovered_device_raw := [] }

section DictLemmas

variable {K V : Type} [DecidableEq K]

theorem opt_or_some {α : Type} (v : α) (b : Option α) : opt_or (some v) b = some v := rfl

theorem opt_or_none {α : Type} (b : Option α) : opt_or none b = b := rfl

theorem dlookup_cons (a : K) (b : V) (rest : List (K × V)) (k : K) :
    dlookup ((a, b) :: rest) k = if a = k then some b else dlookup rest k := rfl

theorem dlookup_append (xs ys : List (K × V)) (k : K) :
    dlookup (xs ++ ys) k = opt_or (dlookup xs k) (dlookup ys k) := by
  induction xs with
  | nil => simp [dlookup, opt_or]
  | cons kv rest ih =>
    obtain ⟨a, b⟩ := kv
    by_cases h : a = k
    · simp [dlookup_cons, h, opt_or]
    · simp [dlookup_cons, h, ih]

theorem dlookup_filter_key (q : K → Bool) (b : List (K × V)) (k : K) :
    dlookup (b.filter (fun kv => q kv.1)) k =
      if q k = true then dlookup b k else none := by
  induction b with
  | nil => simp [dlookup]
  | cons kv rest ih =>
    obtain ⟨a, v⟩ := kv
    rw [List.filter_cons]
    by_cases hk : a = k
    · subst hk
      by_cases hq : q a = true
      · rw [if_pos (by simpa using hq), if_pos hq, dlookup_cons, if_pos rfl,
          dlookup_cons, if_pos rfl]
      · rw [if_neg (by simpa using hq), if_neg hq, ih, if_neg hq]
    · have hrhs : dlookup ((a, v) :: rest) k = dlookup rest k := by
        rw [dlookup_cons, if_neg hk]
      by_cases hq : q a = true
      · rw [if_pos (by simpa using hq), dlookup_cons, if_neg hk, ih, hrhs]
      · rw [if_neg (by simpa using hq), ih, hrhs]

theorem dlookup_map_override (a b : List (K × V)) (k : K) :
    dlookup (a.map (fun kv =>
      match dlookup b kv.1 with
      | some v => (kv.1, v)
      | none => kv)) k =
      (dlookup a k).map (fun v => (dlookup b k).getD v) := by
  induction a with
  | nil => simp [dlookup]
  | cons kv rest ih =>
    obtain ⟨x, v⟩ := kv
    by_cases hk : x = k
    · subst hk
      cases hb : dlookup b x with
      | none => simp [dlookup_cons, hb]
      | some w => simp [dlookup_cons, hb]
    · cases hb : dlookup b x with
      | none => simp [dlookup_cons, hb, hk, ih]
      | some w => simp [dlookup_cons, hb, hk, ih]

theorem dlookup_dict_update (a b : List (K × V)) (k : K) :
    dlookup (dict_update a b) k = opt_or (dlookup b k) (dlookup a k) := by
  unfold dict_update
  rw [dlookup_append, dlookup_map_override]
  have hfilter : dlookup (b.filter (fun kv => (dlookup a kv.1).isNone)) k =
      if (dlookup a k).isNone = true then dlookup b k else none :=
    dlookup_filter_key (fun x => (dlookup a x).isNone) b k
  cases ha : dlookup a k with
  | none =>
    simp only [ha, Option.isNone_none] at hfilter
    cases hb : dlookup b k with
    | none => simp [hfilter, hb, opt_or]
    | some w => simp [hfilter, hb, opt_or]
  | some v =>
    simp only [ha, Option.isNone_some] at hfilter
    cases hb : dlookup b k with
    | none => simp [hfilter, hb, opt_or]
    | some w => simp [hfilter, hb, opt_or]

theorem dlookup_map_setkey (d : List (K × V)) (k : K) (v : V) (q : K) :
    dlookup (d.map (fun kv => if kv.1 = k then (k, v) else kv)) q =
      if q = k then (if (dlookup d k).isSome then some v else none)
      else dlookup d q := by
  induction d with
  | nil => simp [dlookup]
  | cons kv rest ih =>
    obtain ⟨a, b⟩ := kv
    by_cases hak : a = k <;> by_cases haq : a = q <;> by_cases hqk : q = k <;>
      simp_all [List.map_cons, dlookup_cons]

theorem dlookup_dict_set (d : List (K × V)) (k : K) (v : V) (q : K) :
    dlookup (dict_set d k v) q = if q = k then some v else dlookup d q := by
  unfold dict_set
  by_cases hs : (dlookup d k).isSome = true
  · rw [if_pos hs, dlookup_map_setkey, if_pos hs]
  · rw [if_neg hs, dlookup_append]
    have hnone : dlookup d k = none := by
      cases h : dlookup d k with
      | none => rfl
      | some w => rw [h] at hs; simp at hs
    by_cases hq : q = k
    · subst hq
      rw [hnone, opt_or_none, if_pos rfl, dlookup_cons, if_pos rfl]
    · rw [if_neg hq]
      cases h : dlookup d q with
      | none =>
        rw [opt_or_none, dlookup_cons, if_neg (fun hh => hq hh.symm)]
        rfl
      | some w => rw [opt_or_some]

theorem dlookup_dict_remove (d : List (K × V)) (k q : K) :
    dlookup (dict_remove d k) q = if q = k then none else dlookup d q := by
  unfold dict_remove
  have h := dlookup_filter_key (fun x => decide (x ≠ k)) d q
  by_cases hq : q = k
  · subst hq
    simpa using h
  · simpa [hq] using h

theorem dlookup_removeall (L : List K) (d : List (K × V)) (q : K) :
    dlookup (L.foldl dict_remove d) q = if q ∈ L then none else dlookup d q := by
  induction L generalizing d with
  | nil => simp
  | cons k rest ih =>
    rw [List.foldl_cons, ih]
    by_cases hq : q ∈ rest
    · simp [hq, List.mem_cons]
    · rw [if_neg hq, dlookup_dict_remove]
      by_cases hqk : q = k
      · simp [hqk]
      · simp [hqk, List.mem_cons, hq]

theorem mem_of_dlookup {d : List (K × V)} {k : K} {v : V}
    (h : dlookup d k = some v) : (k, v) ∈ d := by
  induction d with
  | nil => simp [dlookup] at h
  | cons kv rest ih =>
    obtain ⟨a, b⟩ := kv
    by_cases hk : a = k
    · subst hk
      rw [dlookup_cons, if_pos rfl] at h
      have hb : b = v := by injection h
      subst hb
      exact List.mem_cons_self _ _
    · rw [dlookup_cons, if_neg hk] at h
      exact List.mem_cons_of_mem _ (ih h)

theorem dlookup_isSome_of_mem {d : List (K × V)} {k : K} {v : V}
    (h : (k, v) ∈ d) : (dlookup d k).isSome := by
  induction d with
  | nil => simp at h
  | cons kv rest ih =>
    obtain ⟨a, b⟩ := kv
    rcases List.mem_cons.mp h with h1 | h2
    · have : a = k := congrArg Prod.fst h1.symm
      rw [dlookup_cons, if_pos this]
      rfl
    · by_cases hk : a = k
      · rw [dlookup_cons, if_pos hk]
        rfl
      · rw [dlookup_cons, if_neg hk]
        exact ih h2

theorem dlookup_eq_none_of_not_mem_keys {d : List (K × V)} {k : K}
    (h : k ∉ d.map Prod.fst) : dlookup d k = none := by
  induction d with
  | nil => rfl
  | cons kv rest ih =>
    obtain ⟨a, b⟩ := kv
    simp only [List.map_cons, List.mem_cons] at h
    push_neg at h
    rw [dlookup_cons, if_neg (fun hh => h.1 hh.symm)]
    exact ih h.2

theorem dlookup_of_mem_nodup {d : List (K × V)} {k : K} {v : V}
    (hnd : (d.map Prod.fst).Nodup) (h : (k, v) ∈ d) : dlookup d k = some v := by
  induction d with
  | nil => simp at h
  | cons kv rest ih =>
    obtain ⟨a, b⟩ := kv
    simp only [List.map_cons, List.nodup_cons] at hnd
    rcases List.mem_cons.mp h with h1 | h2
    · have ha : a = k := congrArg Prod.fst h1.symm
      have hb : b = v := congrArg Prod.snd h1.symm
      rw [dlookup_cons, if_pos ha, hb]
    · have hk : a ≠ k := by
        intro hk
        subst hk
        exact hnd.1 (List.mem_map_of_mem Prod.fst h2)
      rw [dlookup_cons, if_neg hk]
      exact ih hnd.2 h2

theorem map_eq_self_of_eq {α : Type} (l : List α) (f : α → α)
    (h : ∀ x ∈ l, f x = x) : l.map f = l := by
  induction l with
  | nil => rfl
  | cons x rest ih =>
    simp only [List.map_cons]
    rw [h x (List.mem_cons_self x rest), ih (fun y hy => h y (List.mem_cons_of_mem _ hy))]

theorem filter_eq_nil_of_eq_false {α : Type} (l : List α) (p : α → Bool)
    (h : ∀ x ∈ l, p x = false) : l.filter p = [] := by
  induction l with
  | nil => rfl
  | cons x rest ih =>
    rw [List.filter_cons, h x (List.mem_cons_self x rest)]
    simp only [Bool.false_eq_true, if_false]
    exact ih (fun y hy => h y (List.mem_cons_of_mem _ hy))

theorem dict_update_self_idem [DecidableEq V] (a b : List (K × V))
    (hb : (b.map Prod.fst).Nodup) :
    dict_update (dict_update a b) b = dict_update a b := by
  have hmap : (dict_update a b).map (fun kv =>
      match dlookup b kv.1 with
      | some v => (kv.1, v)
      | none => kv) = dict_update a b := by
    apply map_eq_self_of_eq
    intro kv hkv
    unfold dict_update at hkv
    rcases List.mem_append.mp hkv with hma | hmb
    · rcases List.mem_map.mp hma with ⟨kv0, _, heq⟩
      cases hb0 : dlookup b kv0.1 with
      | none =>
        rw [hb0] at heq
        rw [← heq, hb0]
      | some v =>
        rw [hb0] at heq
        rw [← heq]
        simp only
        rw [hb0]
    · have hkvb : kv ∈ b := List.mem_of_mem_filter hmb
      have hl : dlookup b kv.1 = some kv.2 := by
        obtain ⟨x, y⟩ := kv
        exact dlookup_of_mem_nodup hb hkvb
      rw [hl]
  have hfilter : b.filter (fun kv => (dlookup (dict_update a b) kv.1).isNone) = [] := by
    apply filter_eq_nil_of_eq_false
    intro kv hkv
    rw [dlookup_dict_update]
    have hsome : (dlookup b kv.1).isSome := by
      obtain ⟨x, y⟩ := kv
      exact dlookup_isSome_of_mem hkv
    cases hlb : dlookup b kv.1 with
    | none => rw [hlb] at hsome; simp at hsome
    | some v => simp [hlb, opt_or]
  calc dict_update (dict_update a b) b
      = (dict_update a b).map (fun kv =>
          match dlookup b kv.1 with
          | some v => (kv.1, v)
          | none => kv)
        ++ b.filter (fun kv => (dlookup (dict_update a b) kv.1).isNone) := rfl
    _ = dict_update a b ++ [] := by rw [hmap, hfilter]
    _ = dict_update a b := List.append_nil _

theorem dict_subset_of_nodup [DecidableEq V] (b : List (K × V))
    (hb : (b.map Prod.fst).Nodup) : dict_subset b b = true := by
  unfold dict_subset
  rw [List.all_eq_true]
  intro kv hkv
  obtain ⟨x, y⟩ := kv
  exact decide_eq_true (dlookup_of_mem_nodup hb hkv)

end DictLemmas

/-! ## Lemmas about the merge helpers -/

theorem list_union_absorb {α : Type} [DecidableEq α] (l m : List α)
    (h : ∀ x ∈ l, x ∈ m) : l ∪ m = m := by
  induction l with
  | nil => rfl
  | cons x rest ih =>
    rw [List.cons_union, ih (fun y hy => h y (List.mem_cons_of_mem _ hy))]
    exact List.insert_of_mem (h x (List.mem_cons_self x rest))

theorem merged_uuids_superset (incoming old : List String) (u : String)
    (hu : u ∈ old) : u ∈ merged_uuids incoming old := by
  unfold merged_uuids
  by_cases h1 : incoming ≠ [] ∧ incoming ≠ old
  · rw [if_pos h1, List.mem_dedup]
    exact List.mem_append_right _ hu
  · rw [if_neg h1]
    by_cases h2 : incoming = []
    · rw [if_pos h2]; exact hu
    · rw [if_neg h2]
      push_neg at h1
      rw [h1 h2]
      exact hu

theorem merged_uuids_self (u : List String) : merged_uuids u u = u := by
  unfold merged_uuids
  rw [if_neg (by simp)]
  by_cases h : u = []
  · rw [if_pos h]
  · rw [if_neg h]

theorem merged_uuids_idem (u p : List String) :
    merged_uuids u (merged_uuids u p) = merged_uuids u p := by
  by_cases hu : u = []
  · subst hu
    unfold merged_uuids
    simp
  · by_cases hup : u = p
    · subst hup
      rw [merged_uuids_self, merged_uuids_self]
    · have h1 : merged_uuids u p = (u ++ p).dedup := by
        unfold merged_uuids
        rw [if_pos ⟨hu, hup⟩]
      rw [h1]
      by_cases h2 : u = (u ++ p).dedup
      · unfold merged_uuids
        rw [if_neg (fun hcon => hcon.2 h2), if_neg hu]
        exact h2
      · have h3 : merged_uuids u ((u ++ p).dedup) = (u ++ (u ++ p).dedup).dedup := by
          unfold merged_uuids
          rw [if_pos ⟨hu, h2⟩]
        rw [h3]
        rw [List.dedup_append, List.dedup_idem, List.dedup_append]
        exact list_union_absorb u (u ∪ p.dedup) (fun x hx => List.mem_union_left hx _)

theorem merged_map_superset {K V : Type} [DecidableEq K] [DecidableEq V]
    (old incoming : List (K × V)) (b : Bool) (hcons : b = true → incoming = old)
    (k : K) (v : V) (hv : dlookup old k = some v) :
    (dlookup incoming k = none → dlookup (merged_map old incoming b) k = some v) ∧
    (∃ w, dlookup (merged_map old incoming b) k = some w) := by
  unfold merged_map
  by_cases h1 : incoming ≠ [] ∧ b = false
  · rw [if_pos h1]
    by_cases h2 : dict_subset old incoming = true
    · rw [if_pos h2]
      exact ⟨fun _ => hv, v, hv⟩
    · rw [if_neg h2, dlookup_dict_update]
      constructor
      · intro hn
        rw [hn, opt_or_none]
        exact hv
      · cases hi : dlookup incoming k with
        | none => exact ⟨v, by rw [opt_or_none, hv]⟩
        | some w => exact ⟨w, by rw [opt_or_some]⟩
  · rw [if_neg h1]
    by_cases h2 : incoming = []
    · rw [if_pos h2]
      exact ⟨fun _ => hv, v, hv⟩
    · rw [if_neg h2]
      push_neg at h1
      have hb : b = true := by
        cases hb2 : b with
        | false => exact absurd hb2 (h1 h2)
        | true => rfl
      rw [hcons hb]
      exact ⟨fun _ => hv, v, hv⟩

/-- The record stored by `_async_on_advertisement` when a previous record
exists, expressed through the merge helpers. -/
theorem merge_record_eq (sc : ScannerState) (e : AdvEvent) (prev r : SvcInfo)
    (hprev : dlookup sc.infos e.address = some prev)
    (hr : dlookup (async_on_advertisement sc e).infos e.address = some r) :
    r = { name := (merged_name_pair prev.device.name e.local_name
            e.name_is_prev e.address).1
          address := e.address
          rssi := e.rssi
          manufacturer_data := merged_map prev.manufacturer_data
            e.manufacturer_data e.md_is_prev
          service_data := merged_map prev.service_data
            e.service_data e.sd_is_prev
          service_uuids := merged_uuids e.service_uuids prev.service_uuids
          source := sc.source
          device := { address := prev.device.address
                      name := (merged_name_pair prev.device.name e.local_name
                        e.name_is_prev e.address).2
                      details := dict_update prev.device.details e.details }
          connectable := sc.connectable
          time := e.time
          tx_power := e.tx_power } := by
  have hstep : (async_on_advertisement sc e).infos =
      dict_set sc.infos e.address
        { name := (merged_name_pair prev.device.name e.local_name
            e.name_is_prev e.address).1
          address := e.address
          rssi := e.rssi
          manufacturer_data := merged_map prev.manufacturer_data
            e.manufacturer_data e.md_is_prev
          service_data := merged_map prev.service_data
            e.service_data e.sd_is_prev
          service_uuids := merged_uuids e.service_uuids prev.service_uuids
          source := sc.source
          device := { address := prev.device.address
                      name := (merged_name_pair prev.device.name e.local_name
                        e.name_is_prev e.address).2
                      details := dict_update prev.device.details e.details }
          connectable := sc.connectable
          time := e.time
          tx_power := e.tx_power } := by
    unfold async_on_advertisement
    rw [hprev]
  rw [hstep, dlookup_dict_set, if_pos rfl] at hr
  injection hr with hr2
  exact hr2.symm

/-- The record stored by `_async_on_advertisement` on a first sighting. -/
theorem merge_record_eq_fresh (sc : ScannerState) (e : AdvEvent) (r : SvcInfo)
    (hprev : dlookup sc.infos e.address = none)
    (hr : dlookup (async_on_advertisement sc e).infos e.address = some r) :
    r = { name := py_str_or e.local_name e.address
          address := e.address
          rssi := e.rssi
          manufacturer_data := e.manufacturer_data
          service_data := e.service_data
          service_uuids := e.service_uuids
          source := sc.source
          device := { address := e.address
                      name := e.local_name
                      details := dict_update sc.scanner_details e.details }
          connectable := sc.connectable
          time := e.time
          tx_power := e.tx_power } := by
  have hstep : (async_on_advertisement sc e).infos =
      dict_set sc.infos e.address
        { name := py_str_or e.local_name e.address
          address := e.address
          rssi := e.rssi
          manufacturer_data := e.manufacturer_data
          service_data := e.service_data
          service_uuids := e.service_uuids
          source := sc.source
          device := { address := e.address
                      name := e.local_name
                      details := dict_update sc.scanner_details e.details }
          connectable := sc.connectable
          time := e.time
          tx_power := e.tx_power } := by
    unfold async_on_advertisement
    rw [hprev]
  rw [hstep, dlookup_dict_set, if_pos rfl] at hr
  injection hr with hr2
  exact hr2.symm

/-! ## Claims C1-C3 -/

/-- C1 (amended): for a merge into an existing record and for service data
and manufacturer data independently, when the incoming map is non-empty and
is not the same underlying container as the previous map, the previous map is
kept as-is exactly when the INCOMING map is a non-strict subset of the
PREVIOUS map, and otherwise the stored map is the union with incoming values
taking precedence on key conflicts and previous-only keys retained; when the
incoming map is empty the previous map is kept unchanged. -/
theorem claim_C1 (sc : ScannerState) (e : AdvEvent) (prev r : SvcInfo)
    (hprev : dlookup sc.infos e.address = some prev)
    (hr : dlookup (async_on_advertisement sc e).infos e.address = some r) :
    ((e.service_data ≠ [] ∧ e.sd_is_prev = false →
        (dict_subset prev.service_data e.service_data = true →
          r.service_data = prev.service_data) ∧
        (dict_subset prev.service_data e.service_data = false →
          ∀ k, dlookup r.service_data k =
            opt_or (dlookup e.service_data k) (dlookup prev.service_data k))) ∧
      (e.service_data = [] → r.service_data = prev.service_data)) ∧
    ((e.manufacturer_data ≠ [] ∧ e.md_is_prev = false →
        (dict_subset prev.manufacturer_data e.manufacturer_data = true →
          r.manufacturer_data = prev.manufacturer_data) ∧
        (dict_subset prev.manufacturer_data e.manufacturer_data = false →
          ∀ k, dlookup r.manufacturer_data k =
            opt_or (dlookup e.manufacturer_data k)
              (dlookup prev.manufacturer_data k))) ∧
      (e.manufacturer_data = [] → r.manufacturer_data = prev.manufacturer_data)) := by
  have hrec := merge_record_eq sc e prev r hprev hr
  subst hrec
  simp only
  constructor
  · constructor
    · intro h1
      unfold merged_map
      rw [if_pos h1]
      constructor
      · intro h2
        rw [if_pos h2]
      · intro h2
        rw [if_neg (by rw [h2]; exact Bool.false_ne_true)]
        intro k
        exact dlookup_dict_update _ _ _
    · intro h2
      unfold merged_map
      rw [if_neg (fun hcon => hcon.1 h2), if_pos h2]
  · constructor
    · intro h1
      unfold merged_map
      rw [if_pos h1]
      constructor
      · intro h2
        rw [if_pos h2]
      · intro h2
        rw [if_neg (by rw [h2]; exact Bool.false_ne_true)]
        intro k
        exact dlookup_dict_update _ _ _
    · intro h2
      unfold merged_map
      rw [if_neg (fun hcon => hcon.1 h2), if_pos h2]

/-- C2 (amended): for a merge into an existing record, the stored name keeps
the previous device name exactly when that name is present (not None — the
source tests `is not None`, not non-emptiness) AND (the incoming local name
is falsy, OR strictly shorter than the previous name, OR reference-identical
to it); in every other case the incoming name is adopted, falling back to the
address when the incoming name is falsy. -/
theorem claim_C2 (sc : ScannerState) (e : AdvEvent) (prev r : SvcInfo)
    (hprev : dlookup sc.infos e.address = some prev)
    (hr : dlookup (async_on_advertisement sc e).infos e.address = some r) :
    (∀ pn, prev.device.name = some pn →
      ((e.name_is_prev = true ∨ opt_str_falsy e.local_name = true ∨
          opt_str_len e.local_name < pn.length) → r.name = pn) ∧
      (e.name_is_prev = false → opt_str_falsy e.local_name = false →
        pn.length ≤ opt_str_len e.local_name →
        r.name = py_str_or e.local_name e.address)) ∧
    (prev.device.name = none → r.name = py_str_or e.local_name e.address) := by
  have hrec := merge_record_eq sc e prev r hprev hr
  subst hrec
  simp only
  constructor
  · intro pn hpn
    unfold merged_name_pair
    rw [hpn]
    simp only
    constructor
    · intro hcond
      have hc : (e.name_is_prev || opt_str_falsy e.local_name
          || decide (pn.length > opt_str_len e.local_name)) = true := by
        rcases hcond with h | h | h
        · simp [h]
        · simp [h]
        · simp only [Bool.or_eq_true, decide_eq_true_eq]
          right
          exact h
      rw [if_pos hc]
    · intro h1 h2 h3
      have hc : (e.name_is_prev || opt_str_falsy e.local_name
          || decide (pn.length > opt_str_len e.local_name)) = false := by
        rw [h1, h2]
        simp only [Bool.false_or, decide_eq_false_iff_not]
        omega
      rw [if_neg (by rw [hc]; exact Bool.false_ne_true)]
  · intro hn
    unfold merged_name_pair
    rw [hn]

/-- C3 (confirmed): merging never removes a service UUID nor a previously
present service-data or manufacturer-data key, and keys absent from the
incoming map keep their previous value. -/
theorem claim_C3 (sc : ScannerState) (e : AdvEvent) (prev r : SvcInfo)
    (hprev : dlookup sc.infos e.address = some prev)
    (hr : dlookup (async_on_advertisement sc e).infos e.address = some r)
    (hflags : flags_consistent sc e) :
    (∀ u ∈ prev.service_uuids, u ∈ r.service_uuids) ∧
    (∀ k v, dlookup prev.service_data k = some v →
      (dlookup e.service_data k = none → dlookup r.service_data k = some v) ∧
      (∃ w, dlookup r.service_data k = some w)) ∧
    (∀ k v, dlookup prev.manufacturer_data k = some v →
      (dlookup e.manufacturer_data k = none →
        dlookup r.manufacturer_data k = some v) ∧
      (∃ w, dlookup r.manufacturer_data k = some w)) := by
  unfold flags_consistent at hflags
  rw [hprev] at hflags
  have hrec := merge_record_eq sc e prev r hprev hr
  subst hrec
  simp only
  refine ⟨?_, ?_, ?_⟩
  · intro u hu
    exact merged_uuids_superset _ _ u hu
  · intro k v hv
    exact merged_map_superset _ _ _ hflags.1 k v hv
  · intro k v hv
    exact merged_map_superset _ _ _ hflags.2.1 k v hv

/-! ## Idempotence lemmas for claim C4 -/

theorem merged_map_empty {K V : Type} [DecidableEq K] [DecidableEq V]
    (old : List (K × V)) (b : Bool) : merged_map old [] b = old := by
  unfold merged_map
  rw [if_neg (fun hcon => hcon.1 rfl), if_pos rfl]

theorem dict_subset_update {K V : Type} [DecidableEq K] [DecidableEq V]
    (old incoming : List (K × V)) (hn : (incoming.map Prod.fst).Nodup) :
    dict_subset (dict_update old incoming) incoming = true := by
  unfold dict_subset
  rw [List.all_eq_true]
  intro kv hkv
  apply decide_eq_true
  rw [dlookup_dict_update]
  obtain ⟨x, y⟩ := kv
  rw [dlookup_of_mem_nodup hn hkv, opt_or_some]

theorem merged_map_self {K V : Type} [DecidableEq K] [DecidableEq V]
    (incoming : List (K × V)) (b : Bool)
    (hn : (incoming.map Prod.fst).Nodup) :
    merged_map incoming incoming b = incoming := by
  unfold merged_map
  by_cases h1 : incoming ≠ [] ∧ b = false
  · rw [if_pos h1, if_pos (dict_subset_of_nodup incoming hn)]
  · rw [if_neg h1]
    by_cases h2 : incoming = []
    · rw [if_pos h2, h2]
    · rw [if_neg h2]

theorem merged_name_pair_none (l : Option String) (b : Bool) (addr : String) :
    merged_name_pair none l b addr = (py_str_or l addr, l) := rfl

theorem merged_name_pair_some (pn : String) (l : Option String) (b : Bool)
    (addr : String) :
    merged_name_pair (some pn) l b addr =
      if (b || opt_str_falsy l || decide (pn.length > opt_str_len l)) = true
      then (pn, some pn)
      else (py_str_or l addr, l) := rfl

theorem py_str_or_some (s fallback : String) :
    py_str_or (some s) fallback = if s.isEmpty then fallback else s := rfl

theorem merged_map_idem {K V : Type} [DecidableEq K] [DecidableEq V]
    (old incoming : List (K × V)) (b1 b2 : Bool)
    (hn : (incoming.map Prod.fst).Nodup)
    (h2 : b2 = true → incoming = merged_map old incoming b1) :
    merged_map (merged_map old incoming b1) incoming b2 =
      merged_map old incoming b1 := by
  by_cases hi : incoming = []
  · subst hi
    rw [merged_map_empty, merged_map_empty]
  · cases b1 with
    | true =>
      have hX : merged_map old incoming true = incoming := by
        unfold merged_map
        rw [if_neg (fun hcon => by simpa using hcon.2), if_neg hi]
      rw [hX]
      exact merged_map_self incoming b2 hn
    | false =>
      by_cases hsub : dict_subset old incoming = true
      · have hX : merged_map old incoming false = old := by
          unfold merged_map
          rw [if_pos ⟨hi, rfl⟩, if_pos hsub]
        rw [hX]
        cases b2 with
        | true =>
          have hinc := h2 rfl
          rw [hX] at hinc
          unfold merged_map
          rw [if_neg (fun hcon => by simpa using hcon.2), if_neg hi]
          exact hinc
        | false =>
          unfold merged_map
          rw [if_pos ⟨hi, rfl⟩, if_pos hsub]
      · have hX : merged_map old incoming false = dict_update old incoming := by
          unfold merged_map
          rw [if_pos ⟨hi, rfl⟩, if_neg hsub]
        rw [hX]
        cases b2 with
        | true =>
          have hinc := h2 rfl
          rw [hX] at hinc
          unfold merged_map
          rw [if_neg (fun hcon => by simpa using hcon.2), if_neg hi]
          exact hinc
        | false =>
          unfold merged_map
          rw [if_pos ⟨hi, rfl⟩, if_pos (dict_subset_update old incoming hn)]

theorem merged_name_fresh (l : Option String) (b2 : Bool) (addr : String)
    (hl : l ≠ some "") :
    merged_name_pair l l b2 addr = (py_str_or l addr, l) := by
  cases l with
  | none => rfl
  | some s =>
    have hs : ¬ s.isEmpty = true := by
      intro h
      exact hl (by rw [(String.isEmpty_iff s).mp h])
    rw [merged_name_pair_some]
    have hfalsy : opt_str_falsy (some s) = false := by
      unfold opt_str_falsy
      simpa using hs
    have hlen : decide (s.length > opt_str_len (some s)) = false := by
      simp [opt_str_len]
    cases b2 with
    | true =>
      rw [if_pos (by rw [hfalsy, hlen]; rfl)]
      rw [py_str_or_some, if_neg hs]
    | false =>
      rw [if_neg (by rw [hfalsy, hlen]; simp)]

theorem merged_name_idem (dn l : Option String) (b1 b2 : Bool) (addr : String)
    (hl : l ≠ some "")
    (h1 : b1 = true → l = dn)
    (h2 : b2 = true → l = (merged_name_pair dn l b1 addr).2) :
    merged_name_pair (merged_name_pair dn l b1 addr).2 l b2 addr =
      merged_name_pair dn l b1 addr := by
  cases dn with
  | none =>
    rw [merged_name_pair_none]
    exact merged_name_fresh l b2 addr hl
  | some pn =>
    by_cases hc1 : (b1 || opt_str_falsy l || decide (pn.length > opt_str_len l)) = true
    · have hp : merged_name_pair (some pn) l b1 addr = (pn, some pn) := by
        rw [merged_name_pair_some, if_pos hc1]
      rw [hp]
      by_cases htail : (opt_str_falsy l || decide (pn.length > opt_str_len l)) = true
      · have hc2 : (b2 || opt_str_falsy l || decide (pn.length > opt_str_len l)) = true := by
          rcases Bool.or_eq_true_iff.mp htail with h | h
          · simp [h]
          · simp [h]
        simp only
        rw [merged_name_pair_some, if_pos hc2]
      · have hb1t : b1 = true := by
          rcases Bool.or_eq_true_iff.mp hc1 with h | h
          · rcases Bool.or_eq_true_iff.mp h with h3 | h3
            · exact h3
            · exact absurd (by simp [h3]) htail
          · exact absurd (by simp [h]) htail
        have hlpn : l = some pn := h1 hb1t
        have hpn_ne : ¬ pn.isEmpty = true := by
          intro hemp
          rw [hlpn] at htail
          simp [opt_str_falsy, hemp] at htail
        simp only
        rw [merged_name_pair_some]
        by_cases hb2 : (b2 || opt_str_falsy l || decide (pn.length > opt_str_len l)) = true
        · rw [if_pos hb2]
        · rw [if_neg hb2, hlpn, py_str_or_some, if_neg hpn_ne]
    · have hp : merged_name_pair (some pn) l b1 addr = (py_str_or l addr, l) := by
        rw [merged_name_pair_some, if_neg hc1]
      rw [hp]
      have hfalsy : opt_str_falsy l = false := by
        cases hf : opt_str_falsy l with
        | false => rfl
        | true => exact absurd (by simp [hf]) hc1
      obtain ⟨s, hls⟩ : ∃ s, l = some s := by
        cases l with
        | none => simp [opt_str_falsy] at hfalsy
        | some s => exact ⟨s, rfl⟩
      have hs : ¬ s.isEmpty = true := by
        intro h
        rw [hls] at hfalsy
        simp [opt_str_falsy, h] at hfalsy
      rw [hls]
      simp only
    
      have hpy : py_str_or (some s) addr = s := by
        rw [py_str_or_some, if_neg hs]
      have hlen : decide (s.length > opt_str_len (some s)) = false := by
        simp [opt_str_len]
      have hfs : opt_str_falsy (some s) = false := by
        unfold opt_str_falsy
        simpa using hs
      rw [merged_name_pair_some]
      cases b2 with
      | true =>
        rw [if_pos (by rw [hfs, hlen]; rfl), hpy]
      | false =>
        rw [if_neg (by rw [hfs, hlen]; simp)]

theorem async_on_advertisement_const (sc : ScannerState) (e : AdvEvent) :
    (async_on_advertisement sc e).source = sc.source ∧
    (async_on_advertisement sc e).connectable = sc.connectable ∧
    (async_on_advertisement sc e).scanner_details = sc.scanner_details ∧
    (async_on_advertisement sc e).expire_seconds = sc.expire_seconds := by
  unfold async_on_advertisement
  cases dlookup sc.infos e.address <;> exact ⟨rfl, rfl, rfl, rfl⟩

/-- C4 (amended): merging the same advertisement (same address, name, service
UUIDs, service data, manufacturer data, rssi, tx power, details) twice in a
row yields a stored record whose fields all equal those after merging it
once, except for the timestamp — provided the shared local name is not the
empty string (an empty-string local name on a first sighting makes the stored
name flip from the address fallback to the empty string on the repeat). -/
theorem claim_C4 (sc : ScannerState) (e1 e2 : AdvEvent)
    (haddr : e2.address = e1.address) (hrssi : e2.rssi = e1.rssi)
    (hname : e2.local_name = e1.local_name)
    (huuid : e2.service_uuids = e1.service_uuids)
    (hsd : e2.service_data = e1.service_data)
    (hmd : e2.manufacturer_data = e1.manufacturer_data)
    (htx : e2.tx_power = e1.tx_power) (hdet : e2.details = e1.details)
    (hf1 : flags_consistent sc e1)
    (hf2 : flags_consistent (async_on_advertisement sc e1) e2)
    (hln : e1.local_name ≠ some "")
    (hsdn : (e1.service_data.map Prod.fst).Nodup)
    (hmdn : (e1.manufacturer_data.map Prod.fst).Nodup)
    (hdetn : (e1.details.map Prod.fst).Nodup)
    (r1 r2 : SvcInfo)
    (hr1 : dlookup (async_on_advertisement sc e1).infos e1.address = some r1)
    (hr2 : dlookup (async_on_advertisement (async_on_advertisement sc e1) e2).infos
      e1.address = some r2) :
    r2 = { r1 with time := e2.time } := by
  have hconst := async_on_advertisement_const sc e1
  have hprev2 : dlookup (async_on_advertisement sc e1).infos e2.address = some r1 := by
    rw [haddr]
    exact hr1
  rw [← haddr] at hr2
  have hrec2 := merge_record_eq _ e2 r1 r2 hprev2 hr2
  unfold flags_consistent at hf2
  rw [hprev2] at hf2
  rw [haddr, hrssi, hname, huuid, hsd, hmd, htx, hdet, hconst.1, hconst.2.1] at hrec2
  rw [hname, hsd, hmd] at hf2
  cases h0 : dlookup sc.infos e1.address with
  | none =>
    have hrec1 := merge_record_eq_fresh sc e1 r1 h0 hr1
    subst hrec1
    simp only at hrec2 hf2
    rw [hrec2]
    have hpair := merged_name_fresh e1.local_name e2.name_is_prev e1.address hln
    simp only [hpair, merged_map_self _ _ hmdn, merged_map_self _ _ hsdn,
      merged_uuids_self, dict_update_self_idem _ _ hdetn]
  | some p0 =>
    unfold flags_consistent at hf1
    rw [h0] at hf1
    have hrec1 := merge_record_eq sc e1 p0 r1 h0 hr1
    subst hrec1
    simp only at hrec2 hf2
    rw [hrec2]
    have hpair := merged_name_idem p0.device.name e1.local_name e1.name_is_prev
      e2.name_is_prev e1.address hln hf1.2.2 hf2.2.2
    simp only [hpair, merged_map_idem _ _ _ _ hmdn hf2.2.1,
      merged_map_idem _ _ _ _ hsdn hf2.1, merged_uuids_idem,
      dict_update_self_idem _ _ hdetn]

/-- Effect of the live expiry pass on one stored record. -/
theorem dlookup_async_expire (sc : ScannerState) (now : ℚ) (a : String)
    (r : SvcInfo) (hn : (sc.infos.map Prod.fst).Nodup)
    (hl : dlookup sc.infos a = some r) :
    dlookup (async_expire_devices sc now).infos a =
      if now - r.time > sc.expire_seconds then none else some r := by
  unfold async_expire_devices
  simp only
  rw [dlookup_removeall]
  by_cases hc : now - r.time > sc.expire_seconds
  · rw [if_pos hc]
    rw [if_pos (List.mem_map.mpr ⟨(a, r),
      List.mem_filter.mpr ⟨mem_of_dlookup hl, by simpa using hc⟩, rfl⟩)]
  · rw [if_neg hc]
    rw [if_neg ?_, hl]
    intro hm
    obtain ⟨⟨a2, r2⟩, hmem, heq⟩ := List.mem_map.mp hm
    have hfm := List.mem_filter.mp hmem
    have ha2 : a2 = a := heq
    subst ha2
    have hr2 : dlookup sc.infos a2 = some r2 := dlookup_of_mem_nodup hn hfm.1
    rw [hl] at hr2
    injection hr2 with hr2e
    rw [← hr2e] at hfm
    exact hc (by simpa using hfm.2)

/-! ## Codec round-trip lemmas -/

theorem hex_decode_encode (b : List Nat) (h : ∀ x ∈ b, x < 256) :
    hex_decode (hex_encode b) = some b := by
  induction b with
  | nil => rfl
  | cons x rest ih =>
    have hx : x < 256 := h x (List.mem_cons_self x rest)
    have hhi : x / 16 < 16 := by omega
    have hlo : x % 16 < 16 := Nat.mod_lt _ (by norm_num)
    have hxeq : x / 16 * 16 + x % 16 = x := by omega
    show hex_decode (x / 16 :: x % 16 :: hex_encode rest) = some (x :: rest)
    unfold hex_decode
    rw [if_pos ⟨hhi, hlo⟩, ih (fun y hy => h y (List.mem_cons_of_mem _ hy))]
    show some ((x / 16 * 16 + x % 16) :: rest) = some (x :: rest)
    rw [hxeq]

theorem int_of_str_of_nat (n : Nat) : int_of_str (str_of_nat n) = some n := by
  by_cases h0 : n = 0
  · subst h0
    rfl
  · unfold str_of_nat
    rw [if_neg h0]
    unfold int_of_str
    rw [if_pos ?_]
    · rw [List.reverse_reverse, Nat.ofDigits_digits]
    · constructor
      · simp only [ne_eq, List.reverse_eq_nil_iff]
        exact Nat.digits_ne_nil_iff_ne_zero.mpr h0
      · rw [List.all_eq_true]
        intro d hd
        apply decide_eq_true
        exact Nat.digits_lt_base (by norm_num) (List.mem_reverse.mp hd)

theorem option_map_list_map_round {α β : Type} (f : β → Option α) (g : α → β)
    (l : List α) (h : ∀ x ∈ l, f (g x) = some x) :
    option_map_list f (l.map g) = some l := by
  induction l with
  | nil => rfl
  | cons x rest ih =>
    show option_map_list f (g x :: rest.map g) = some (x :: rest)
    unfold option_map_list
    rw [h x (List.mem_cons_self x rest),
      ih (fun y hy => h y (List.mem_cons_of_mem _ hy))]

theorem option_map_list_eq_none_iff {α β : Type} (f : α → Option β)
    (l : List α) :
    option_map_list f l = none ↔ ∃ x ∈ l, f x = none := by
  induction l with
  | nil => simp [option_map_list]
  | cons x rest ih =>
    unfold option_map_list
    cases hfx : f x with
    | none =>
      simp only [true_iff]
      exact ⟨x, List.mem_cons_self x rest, hfx⟩
    | some y =>
      cases hrest : option_map_list f rest with
      | none =>
        simp only [true_iff]
        obtain ⟨z, hz, hfz⟩ := ih.mp hrest
        exact ⟨z, List.mem_cons_of_mem _ hz, hfz⟩
      | some ys =>
        simp only [reduceCtorEq, false_iff]
        rintro ⟨z, hz, hfz⟩
        rcases List.mem_cons.mp hz with hzx | hzr
        · rw [hzx] at hfz
          rw [hfz] at hfx
          exact Option.noConfusion hfx
        · have : option_map_list f rest = none := ih.mpr ⟨z, hzr, hfz⟩
          rw [this] at hrest
          exact Option.noConfusion hrest

theorem advertisement_data_round (a : AdvData)
    (hmd : ∀ q ∈ a.manufacturer_data, ∀ x ∈ q.2, x < 256)
    (hsd : ∀ q ∈ a.service_data, ∀ x ∈ q.2, x < 256) :
    advertisement_data_from_dict (advertisement_data_to_dict a) = some a := by
  unfold advertisement_data_to_dict advertisement_data_from_dict
  simp only
  rw [option_map_list_map_round _ _ a.manufacturer_data ?hmd1]
  case hmd1 =>
    intro q hq
    show (match int_of_str (str_of_nat q.1) with
      | none => none
      | some k =>
        match hex_decode (hex_encode q.2) with
        | none => none
        | some b => some (k, b)) = some q
    rw [int_of_str_of_nat, hex_decode_encode q.2 (hmd q hq)]
  rw [option_map_list_map_round _ _ a.service_data ?hsd1]
  case hsd1 =>
    intro q hq
    show (match hex_decode (hex_encode q.2) with
      | none => none
      | some b => some (q.1, b)) = some q
    rw [hex_decode_encode q.2 (hsd q hq)]

theorem raw_round (raw : List (String × Option (List Nat)))
    (h : ∀ p ∈ raw, ∀ b, p.2 = some b → ∀ x ∈ b, x < 256) :
    deserialize_discovered_device_raw (serialize_discovered_device_raw raw) =
      some raw := by
  unfold deserialize_discovered_device_raw serialize_discovered_device_raw
  apply option_map_list_map_round
  intro p hp
  obtain ⟨a1, p2⟩ := p
  cases p2 with
  | none => rfl
  | some b =>
    have hb := h (a1, some b) hp b rfl
    show (match hex_decode (hex_encode b) with
        | none => none
        | some b2 => some (a1, some b2)) = some (a1, some b)
    rw [hex_decode_encode b hb]

theorem timestamps_round (ts : List (String × ℚ)) (time_diff : ℚ) :
    deserialize_discovered_device_timestamps
      (serialize_discovered_device_timestamps ts time_diff) time_diff = ts := by
  unfold deserialize_discovered_device_timestamps
    serialize_discovered_device_timestamps
  rw [List.map_map]
  apply map_eq_self_of_eq
  intro p _
  simp only [Function.comp_apply, add_sub_cancel_right]

/-- C5 (confirmed): serializing a snapshot and deserializing the result gives
back the snapshot, exactly on every field; the per-address timestamps are
translated monotonic-to-wall-clock on write and back on read with the offset
sampled once per call (`time_diff`), which cancels exactly in the rational
time model. -/
theorem claim_C5 (d : DiscoveredDeviceAdvertisementData) (time_diff : ℚ)
    (hbytes : ∀ p ∈ d.discovered_device_advertisement_datas,
      (∀ q ∈ p.2.2.manufacturer_data, ∀ x ∈ q.2, x < 256) ∧
      (∀ q ∈ p.2.2.service_data, ∀ x ∈ q.2, x < 256))
    (hraw : ∀ p ∈ d.discovered_device_raw, ∀ b, p.2 = some b →
      ∀ x ∈ b, x < 256) :
    discovered_device_advertisement_data_from_dict
      (to_raw_store_dict
        (discovered_device_advertisement_data_to_dict d time_diff)) time_diff =
      some d := by
  unfold discovered_device_advertisement_data_to_dict to_raw_store_dict
    discovered_device_advertisement_data_from_dict
  simp only
  have hdatas : deserialize_discovered_device_advertisement_datas
      (serialize_discovered_device_advertisement_datas
        d.discovered_device_advertisement_datas) =
      some d.discovered_device_advertisement_datas := by
    unfold deserialize_discovered_device_advertisement_datas
      serialize_discovered_device_advertisement_datas
    apply option_map_list_map_round
    intro p hp
    show (match advertisement_data_from_dict (advertisement_data_to_dict p.2.2) with
      | none => none
      | some adv =>
        some (p.1, ble_device_from_dict (ble_device_to_dict p.2.1 p.2.2), adv)) =
      some p
    rw [advertisement_data_round p.2.2 (hbytes p hp).1 (hbytes p hp).2]
    rfl
  simp only [hdatas, Option.getD_some, raw_round d.discovered_device_raw hraw,
    timestamps_round]

/-! ## All-or-nothing deserialization (claim C8) -/

theorem md_entry_eq_none_iff (p : List Nat × List Nat) :
    md_entry_from_dict p = none ↔
      int_of_str p.1 = none ∨ hex_decode p.2 = none := by
  unfold md_entry_from_dict
  cases h1 : int_of_str p.1 <;> cases h2 : hex_decode p.2 <;> simp

theorem sd_entry_eq_none_iff (p : String × List Nat) :
    sd_entry_from_dict p = none ↔ hex_decode p.2 = none := by
  unfold sd_entry_from_dict
  cases h2 : hex_decode p.2 <;> simp

theorem raw_entry_eq_none_iff (p : String × Option (List Nat)) :
    raw_entry_from_dict p = none ↔
      ∃ s, p.2 = some s ∧ hex_decode s = none := by
  unfold raw_entry_from_dict
  cases hp2 : p.2 with
  | none => simp
  | some s => cases hs : hex_decode s <;> simp [hs]

theorem device_entry_eq_none_iff (p : String × DiscoveredDeviceDictL) :
    device_entry_from_dict p = none ↔
      advertisement_data_from_dict p.2.advertisement_data = none := by
  unfold device_entry_from_dict
  cases h : advertisement_data_from_dict p.2.advertisement_data <;> simp

theorem adv_from_dict_eq_none_iff (ad : AdvertisementDataDictL) :
    advertisement_data_from_dict ad = none ↔
      (∃ q ∈ ad.manufacturer_data,
        int_of_str q.1 = none ∨ hex_decode q.2 = none) ∨
      (∃ q ∈ ad.service_data, hex_decode q.2 = none) := by
  unfold advertisement_data_from_dict
  cases hmd : option_map_list md_entry_from_dict ad.manufacturer_data with
  | none =>
    refine iff_of_true rfl (Or.inl ?_)
    obtain ⟨q, hq, hfq⟩ := (option_map_list_eq_none_iff _ _).mp hmd
    exact ⟨q, hq, (md_entry_eq_none_iff q).mp hfq⟩
  | some md =>
    cases hsd : option_map_list sd_entry_from_dict ad.service_data with
    | none =>
      refine iff_of_true rfl (Or.inr ?_)
      obtain ⟨q, hq, hfq⟩ := (option_map_list_eq_none_iff _ _).mp hsd
      exact ⟨q, hq, (sd_entry_eq_none_iff q).mp hfq⟩
    | some sd =>
      refine iff_of_false (by simp) ?_
      rintro (⟨q, hq, hbad⟩ | ⟨q, hq, hbad⟩)
      · have hn : option_map_list md_entry_from_dict ad.manufacturer_data = none :=
          (option_map_list_eq_none_iff _ _).mpr
            ⟨q, hq, (md_entry_eq_none_iff q).mpr hbad⟩
        rw [hn] at hmd
        exact Option.noConfusion hmd
      · have hn : option_map_list sd_entry_from_dict ad.service_data = none :=
          (option_map_list_eq_none_iff _ _).mpr
            ⟨q, hq, (sd_entry_eq_none_iff q).mpr hbad⟩
        rw [hn] at hsd
        exact Option.noConfusion hsd

theorem deserialize_datas_eq_none_iff (datas : List (String × DiscoveredDeviceDictL)) :
    deserialize_discovered_device_advertisement_datas datas = none ↔
      ∃ p ∈ datas,
        (∃ q ∈ p.2.advertisement_data.manufacturer_data,
          int_of_str q.1 = none ∨ hex_decode q.2 = none) ∨
        (∃ q ∈ p.2.advertisement_data.service_data, hex_decode q.2 = none) := by
  unfold deserialize_discovered_device_advertisement_datas
  rw [option_map_list_eq_none_iff]
  constructor
  · rintro ⟨p, hp, hfp⟩
    exact ⟨p, hp,
      (adv_from_dict_eq_none_iff _).mp ((device_entry_eq_none_iff p).mp hfp)⟩
  · rintro ⟨p, hp, hbad⟩
    exact ⟨p, hp,
      (device_entry_eq_none_iff p).mpr ((adv_from_dict_eq_none_iff _).mpr hbad)⟩

theorem deserialize_raw_eq_none_iff (raw : List (String × Option (List Nat))) :
    deserialize_discovered_device_raw raw = none ↔
      ∃ p ∈ raw, ∃ s, p.2 = some s ∧ hex_decode s = none := by
  unfold deserialize_discovered_device_raw
  rw [option_map_list_eq_none_iff]
  constructor
  · rintro ⟨p, hp, hfp⟩
    exact ⟨p, hp, (raw_entry_eq_none_iff p).mp hfp⟩
  · rintro ⟨p, hp, hbad⟩
    exact ⟨p, hp, (raw_entry_eq_none_iff p).mpr hbad⟩

/-- C8 (confirmed): deserializing one scanner's snapshot dict is
all-or-nothing — the result is `None` exactly when the dict has a structural
error (missing required field or malformed decimal/hex payload anywhere in
it); otherwise a fully-populated value is returned, and no exception ever
escapes the function (totality of the model). -/
theorem claim_C8 (r : RawStoreDict) (time_diff : ℚ) :
    discovered_device_advertisement_data_from_dict r time_diff = none ↔
      store_dict_error r := by
  unfold discovered_device_advertisement_data_from_dict store_dict_error
  cases hc : r.connectable with
  | none => exact iff_of_true rfl (Or.inl rfl)
  | some conn =>
  cases he : r.expire_seconds with
  | none => exact iff_of_true rfl (Or.inr (Or.inl rfl))
  | some exp =>
  cases hd : r.discovered_device_advertisement_datas with
  | none => exact iff_of_true rfl (Or.inr (Or.inr (Or.inl rfl)))
  | some rawdatas =>
  cases hdes : deserialize_discovered_device_advertisement_datas rawdatas with
  | none =>
    refine iff_of_true (by simp [hdes]) (Or.inr (Or.inr (Or.inr (Or.inr (Or.inl
      ⟨rawdatas, rfl, (deserialize_datas_eq_none_iff rawdatas).mp hdes⟩)))))
  | some datas =>
  cases ht : r.discovered_device_timestamps with
  | none =>
    refine iff_of_true (by simp [hdes]) (Or.inr (Or.inr (Or.inr (Or.inl rfl))))
  | some rawts =>
  cases hraw0 : r.discovered_device_raw with
  | none =>
    refine iff_of_false (by simp [hdes, deserialize_discovered_device_raw,
      option_map_list]) ?_
    rintro (h | h | h | h | ⟨datas2, hq, hbad⟩ | ⟨raw2, hq, hbad⟩)
    · exact Option.noConfusion h
    · exact Option.noConfusion h
    · exact Option.noConfusion h
    · exact Option.noConfusion h
    · injection hq with hq2
      subst hq2
      have hn := (deserialize_datas_eq_none_iff rawdatas).mpr hbad
      rw [hn] at hdes
      exact Option.noConfusion hdes
    · exact Option.noConfusion hq
  | some rawraw =>
  cases hdesraw : deserialize_discovered_device_raw rawraw with
  | none =>
    refine iff_of_true (by simp [hdes, hdesraw])
      (Or.inr (Or.inr (Or.inr (Or.inr (Or.inr
        ⟨rawraw, rfl, (deserialize_raw_eq_none_iff rawraw).mp hdesraw⟩)))))
  | some raws =>
    refine iff_of_false (by simp [hdes, hdesraw]) ?_
    rintro (h | h | h | h | ⟨datas2, hq, hbad⟩ | ⟨raw2, hq, hbad⟩)
    · exact Option.noConfusion h
    · exact Option.noConfusion h
    · exact Option.noConfusion h
    · exact Option.noConfusion h
    · injection hq with hq2
      subst hq2
      have hn := (deserialize_datas_eq_none_iff rawdatas).mpr hbad
      rw [hn] at hdes
      exact Option.noConfusion hdes
    · injection hq with hq2
      subst hq2
      have hn := (deserialize_raw_eq_none_iff rawraw).mpr hbad
      rw [hn] at hdesraw
      exact Option.noConfusion hdesraw

/-! ## Expiry passes (claims C6, C7) -/

theorem mem_filter_keys {K V : Type} [DecidableEq K] (l : List (K × V))
    (p : K × V → Bool) (a : K) :
    a ∈ (l.filter p).map Prod.fst ↔ ∃ v, (a, v) ∈ l ∧ p (a, v) = true := by
  constructor
  · intro hm
    obtain ⟨⟨a2, v⟩, hmem, heq⟩ := List.mem_map.mp hm
    have hf := List.mem_filter.mp hmem
    have ha2 : a2 = a := heq
    subst ha2
    exact ⟨v, hf.1, hf.2⟩
  · rintro ⟨v, hv, hp⟩
    exact List.mem_map.mpr ⟨(a, v), List.mem_filter.mpr ⟨hv, hp⟩, rfl⟩

/-- Effect of the on-load expiry pass of one scanner on one address. -/
theorem dlookup_expire_scanner (d : DiscoveredDeviceAdvertisementDataDictL)
    (now : ℚ) (a : String) (t : ℚ)
    (hn : (d.discovered_device_timestamps.map Prod.fst).Nodup)
    (hl : dlookup d.discovered_device_timestamps a = some t) :
    (dlookup (expire_scanner_data now d).discovered_device_timestamps a =
      if now - t > d.expire_seconds ∨ now - t < 0 then none else some t) ∧
    ((now - t > d.expire_seconds ∨ now - t < 0) →
      dlookup (expire_scanner_data now d).discovered_device_advertisement_datas a
        = none ∧
      dlookup (expire_scanner_data now d).discovered_device_raw a = none) ∧
    (¬(now - t > d.expire_seconds ∨ now - t < 0) →
      dlookup (expire_scanner_data now d).discovered_device_advertisement_datas a
        = dlookup d.discovered_device_advertisement_datas a ∧
      dlookup (expire_scanner_data now d).discovered_device_raw a =
        dlookup d.discovered_device_raw a) := by
  have hmem : a ∈ ((d.discovered_device_timestamps.filter
      (fun p => decide (now - p.2 > d.expire_seconds) ||
        decide (now - p.2 < 0))).map Prod.fst) ↔
      (now - t > d.expire_seconds ∨ now - t < 0) := by
    rw [mem_filter_keys]
    constructor
    · rintro ⟨t2, ht2, hp⟩
      have : dlookup d.discovered_device_timestamps a = some t2 :=
        dlookup_of_mem_nodup hn ht2
      rw [hl] at this
      injection this with hte
      subst hte
      simpa using hp
    · intro hbad
      exact ⟨t, mem_of_dlookup hl, by simpa using hbad⟩
  unfold expire_scanner_data
  simp only
  rw [dlookup_removeall, dlookup_removeall, dlookup_removeall]
  by_cases hbad : now - t > d.expire_seconds ∨ now - t < 0
  · rw [if_pos (hmem.mpr hbad), if_pos (hmem.mpr hbad), if_pos (hmem.mpr hbad),
      if_pos hbad]
    exact ⟨rfl, fun _ => ⟨rfl, rfl⟩, fun hcon => absurd hbad hcon⟩
  · have hnm : a ∉ ((d.discovered_device_timestamps.filter
        (fun p => decide (now - p.2 > d.expire_seconds) ||
          decide (now - p.2 < 0))).map Prod.fst) := fun hm => hbad (hmem.mp hm)
    rw [if_neg hnm, if_neg hnm, if_neg hnm, if_neg hbad, hl]
    exact ⟨rfl, fun hcon => absurd hcon hbad, fun _ => ⟨rfl, rfl⟩⟩

/-- Scanner-level effect of the on-load maintenance pass. -/
theorem dlookup_expire_stale (now : ℚ)
    (db : List (String × DiscoveredDeviceAdvertisementDataDictL))
    (hn : (db.map Prod.fst).Nodup) (s : String) :
    dlookup (expire_stale_scanner_discovered_device_advertisement_data now db) s =
      match dlookup db s with
      | none => none
      | some d =>
        if (expire_scanner_data now d).discovered_device_timestamps.isEmpty
        then none
        else some (expire_scanner_data now d) := by
  induction db with
  | nil => rfl
  | cons p rest ih =>
    obtain ⟨k, d⟩ := p
    simp only [List.map_cons, List.nodup_cons] at hn
    unfold expire_stale_scanner_discovered_device_advertisement_data
    simp only [List.map_cons, List.filter_cons]
    have hrest := ih hn.2
    unfold expire_stale_scanner_discovered_device_advertisement_data at hrest
    by_cases hq : (!(expire_scanner_data now d).discovered_device_timestamps.isEmpty) = true
    · rw [if_pos hq]
      by_cases hs : k = s
      · subst hs
        rw [dlookup_cons, if_pos rfl, dlookup_cons, if_pos rfl]
        have hq2 : (expire_scanner_data now d).discovered_device_timestamps.isEmpty
            = false := by
          cases hiq : (expire_scanner_data now d).discovered_device_timestamps.isEmpty
          · rfl
          · rw [hiq] at hq
            simp at hq
        show some (expire_scanner_data now d) =
          if (expire_scanner_data now d).discovered_device_timestamps.isEmpty = true
          then none else some (expire_scanner_data now d)
        rw [hq2]
        simp
      · rw [dlookup_cons, if_neg hs, dlookup_cons, if_neg hs]
        exact hrest
    · rw [if_neg hq]
      by_cases hs : k = s
      · subst hs
        rw [dlookup_cons, if_pos rfl]
        have hq2 : (expire_scanner_data now d).discovered_device_timestamps.isEmpty
            = true := by
          cases hiq : (expire_scanner_data now d).discovered_device_timestamps.isEmpty
          · rw [hiq] at hq
            simp at hq
          · rfl
        rw [hrest, dlookup_eq_none_of_not_mem_keys hn.1]
        show (none : Option DiscoveredDeviceAdvertisementDataDictL) =
          if (expire_scanner_data now d).discovered_device_timestamps.isEmpty = true
          then none else some (expire_scanner_data now d)
        rw [hq2]
        simp
      · rw [dlookup_cons, if_neg hs]
        exact hrest

/-- C6 (confirmed): both the live expiry pass and the on-load maintenance
pass compare the age strictly against the window: a record whose age equals
`expire_seconds` exactly is retained, one whose age exceeds it by any
positive amount is removed (the on-load half additionally assumes the
configured window is non-negative, as the real constant is, since that pass
also discards future-dated entries). -/
theorem claim_C6 :
    (∀ (sc : ScannerState) (now : ℚ) (a : String) (r : SvcInfo),
      (sc.infos.map Prod.fst).Nodup → dlookup sc.infos a = some r →
      (now - r.time = sc.expire_seconds →
        dlookup (async_expire_devices sc now).infos a = some r) ∧
      (now - r.time > sc.expire_seconds →
        dlookup (async_expire_devices sc now).infos a = none)) ∧
    (∀ (d : DiscoveredDeviceAdvertisementDataDictL) (now : ℚ) (a : String) (t : ℚ),
      (d.discovered_device_timestamps.map Prod.fst).Nodup →
      0 ≤ d.expire_seconds →
      dlookup d.discovered_device_timestamps a = some t →
      (now - t = d.expire_seconds →
        dlookup (expire_scanner_data now d).discovered_device_timestamps a =
          some t) ∧
      (now - t > d.expire_seconds →
        dlookup (expire_scanner_data now d).discovered_device_timestamps a =
          none)) := by
  constructor
  · intro sc now a r hn hl
    constructor
    · intro heq
      rw [dlookup_async_expire sc now a r hn hl, if_neg (by rw [heq]; exact lt_irrefl _)]
    · intro hgt
      rw [dlookup_async_expire sc now a r hn hl, if_pos hgt]
  · intro d now a t hn hexp hl
    have h := (dlookup_expire_scanner d now a t hn hl).1
    constructor
    · intro heq
      rw [h, if_neg ?_]
      rintro (hgt | hfut)
      · rw [heq] at hgt
        exact lt_irrefl _ hgt
      · rw [heq] at hfut
        exact absurd hexp (not_le.mpr hfut)
    · intro hgt
      rw [h, if_pos (Or.inl hgt)]

/-- C7 (confirmed): the on-load maintenance pass removes, from a scanner's
timestamps, advertisement-data and raw maps together, every address whose
persisted timestamp is expired or future-dated (discarded, not clamped),
retains every other address untouched, and afterwards drops every scanner
whose timestamp map became empty from the collection. -/
theorem claim_C7 :
    (∀ (now : ℚ) (db : List (String × DiscoveredDeviceAdvertisementDataDictL)),
      (db.map Prod.fst).Nodup → ∀ s,
      dlookup (expire_stale_scanner_discovered_device_advertisement_data now db)
          s =
        match dlookup db s with
        | none => none
        | some d =>
          if (expire_scanner_data now d).discovered_device_timestamps.isEmpty
          then none
          else some (expire_scanner_data now d)) ∧
    (∀ (d : DiscoveredDeviceAdvertisementDataDictL) (now : ℚ) (a : String)
        (t : ℚ),
      (d.discovered_device_timestamps.map Prod.fst).Nodup →
      dlookup d.discovered_device_timestamps a = some t →
      ((now - t > d.expire_seconds ∨ now - t < 0) →
        dlookup (expire_scanner_data now d).discovered_device_timestamps a =
          none ∧
        dlookup
          (expire_scanner_data now d).discovered_device_advertisement_datas a =
          none ∧
        dlookup (expire_scanner_data now d).discovered_device_raw a = none) ∧
      (¬(now - t > d.expire_seconds ∨ now - t < 0) →
        dlookup (expire_scanner_data now d).discovered_device_timestamps a =
          some t ∧
        dlookup
          (expire_scanner_data now d).discovered_device_advertisement_datas a =
          dlookup d.discovered_device_advertisement_datas a ∧
        dlookup (expire_scanner_data now d).discovered_device_raw a =
          dlookup d.discovered_device_raw a)) := by
  constructor
  · intro now db hn s
    exact dlookup_expire_stale now db hn s
  · intro d now a t hn hl
    obtain ⟨h1, h2, h3⟩ := dlookup_expire_scanner d now a t hn hl
    constructor
    · intro hbad
      exact ⟨by rw [h1, if_pos hbad], (h2 hbad).1, (h2 hbad).2⟩
    · intro hgood
      exact ⟨by rw [h1, if_neg hgood], (h3 hgood).1, (h3 hgood).2⟩

/-- Every state passed through while running a trace (including start and
end states). -/

theorem gate_run_append (s : GateState) (xs ys : List GateOp) :
    gate_run s (xs ++ ys) = gate_run (gate_run s xs) ys := by
  induction xs generalizing s with
  | nil => rfl
  | cons op rest ih => exact ih (gate_step s op)

theorem gate_states_append (s : GateState) (xs ys : List GateOp)
    (st : GateState) (h : st ∈ gate_states s (xs ++ ys)) :
    st ∈ gate_states s xs ∨ st ∈ gate_states (gate_run s xs) ys := by
  induction xs generalizing s with
  | nil => exact Or.inr h
  | cons op rest ih =>
    rcases List.mem_cons.mp h with h1 | h2
    · left
      rw [h1]
      exact List.mem_cons_self _ _
    · rcases ih (gate_step s op) h2 with h3 | h3
      · exact Or.inl (List.mem_cons_of_mem _ h3)
      · exact Or.inr h3

theorem gate_balanced_run {w : List GateOp} (hw : GateBalanced w) :
    ∀ s : GateState, (gate_run s w).connecting = s.connecting := by
  induction hw with
  | nil => intro s; rfl
  | @wrap w v hb hv ihb ihv =>
    intro s
    show (gate_run (gate_enter s) (w ++ GateOp.leave :: v)).connecting =
      s.connecting
    rw [gate_run_append]
    show (gate_run (gate_leave (gate_run (gate_enter s) w)) v).connecting =
      s.connecting
    rw [ihv]
    show (gate_run (gate_enter s) w).connecting - 1 = s.connecting
    rw [ihb]
    show s.connecting + 1 - 1 = s.connecting
    omega

theorem gate_balanced_floor {w : List GateOp} (hw : GateBalanced w) :
    ∀ (s : GateState) (st : GateState), st ∈ gate_states s w →
      s.connecting ≤ st.connecting := by
  induction hw with
  | nil =>
    intro s st h
    rcases List.mem_cons.mp h with h1 | h2
    · rw [h1]
    · simp at h2
  | @wrap w v hb hv ihb ihv =>
    intro s st h
    rcases List.mem_cons.mp h with h1 | h2
    · rw [h1]
    · rcases gate_states_append (gate_enter s) w (GateOp.leave :: v) st h2
        with h3 | h3
      · have h4 := ihb (gate_enter s) st h3
        have h5 : (gate_enter s).connecting = s.connecting + 1 := rfl
        omega
      · rcases List.mem_cons.mp h3 with h4 | h5
        · rw [h4]
          have h6 := gate_balanced_run hb (gate_enter s)
          have h7 : (gate_enter s).connecting = s.connecting + 1 := rfl
          omega
        · have h6 := ihv (gate_leave (gate_run (gate_enter s) w)) st h5
          have h7 := gate_balanced_run hb (gate_enter s)
          have h8 : (gate_enter s).connecting = s.connecting + 1 := rfl
          have h9 : (gate_leave (gate_run (gate_enter s) w)).connecting =
              (gate_run (gate_enter s) w).connecting - 1 := rfl
          omega

/-- C9 (confirmed): the connecting gate is reentrant and balanced — each
enter increments the depth and sets `scanning = (depth == 0)`, each leave
(guaranteed by the scoped `finally`, also on exceptional exits, which is why
every realizable trace is balanced) decrements and recomputes the same way;
over any properly nested trace the counter returns to its prior value and
never drops below it (in particular never below zero). -/
theorem claim_C9 (w : List GateOp) (s : GateState) (hw : GateBalanced w)
    (hpos : 0 ≤ s.connecting) :
    (gate_run s w).connecting = s.connecting ∧
    (∀ st ∈ gate_states s w, 0 ≤ st.connecting) ∧
    (∀ u : GateState,
      (gate_enter u).connecting = u.connecting + 1 ∧
      (gate_enter u).scanning = decide ((gate_enter u).connecting = 0) ∧
      (gate_leave u).connecting = u.connecting - 1 ∧
      (gate_leave u).scanning = decide ((gate_leave u).connecting = 0)) :=
  ⟨gate_balanced_run hw s,
   fun st hst => le_trans hpos (gate_balanced_floor hw s st hst),
   fun _ => ⟨rfl, rfl, rfl, rfl⟩⟩

theorem mem_removeall_subset {K V : Type} [DecidableEq K] (L : List K)
    (d : List (K × V)) (x : K × V) (h : x ∈ L.foldl dict_remove d) : x ∈ d := by
  induction L generalizing d with
  | nil => exact h
  | cons k rest ih =>
    have := ih (dict_remove d k) h
    exact List.mem_of_mem_filter this

theorem restored_infos_connectable (sc : ScannerState)
    (history : DiscoveredDeviceAdvertisementData) (a : String) (r : SvcInfo)
    (h : (a, r) ∈ restored_infos sc history) : r.connectable = sc.connectable := by
  unfold restored_infos at h
  obtain ⟨p, _, heq⟩ := List.mem_map.mp h
  have hsnd := congrArg Prod.snd heq
  simp only at hsnd
  rw [← hsnd]
  rfl

/-- C10 (confirmed): `restore_discovered_devices` ignores the snapshot's own
`connectable` flag and `expire_seconds` value entirely — the result is
invariant under changing them; every restored record carries the scanner's
own `connectable` flag; the scanner's configured window is unchanged by the
restore; and the immediate post-restore expiry pass keeps or drops an
address by comparing its persisted timestamp against the scanner's window,
not the snapshot's. -/
theorem claim_C10 (sc : ScannerState)
    (history : DiscoveredDeviceAdvertisementData) (now : ℚ) :
    (∀ (b : Bool) (q : ℚ),
      restore_discovered_devices sc
        { history with connectable := b, expire_seconds := q } now =
      restore_discovered_devices sc history now) ∧
    ((restore_discovered_devices sc history now).connectable = sc.connectable ∧
     (restore_discovered_devices sc history now).expire_seconds =
       sc.expire_seconds) ∧
    (∀ a r, dlookup (restore_discovered_devices sc history now).infos a =
        some r → r.connectable = sc.connectable) ∧
    ((history.discovered_device_advertisement_datas.map Prod.fst).Nodup →
      ∀ a dev adv t,
        (a, dev, adv) ∈ history.discovered_device_advertisement_datas →
        dlookup history.discovered_device_timestamps a = some t →
        (now - t ≤ sc.expire_seconds →
          ∃ r, dlookup (restore_discovered_devices sc history now).infos a =
            some r ∧ r.time = t) ∧
        (now - t > sc.expire_seconds →
          dlookup (restore_discovered_devices sc history now).infos a =
            none)) := by
  refine ⟨fun b q => rfl, ⟨rfl, rfl⟩, ?_, ?_⟩
  · intro a r hr
    have hmem : (a, r) ∈ (restore_discovered_devices sc history now).infos :=
      mem_of_dlookup hr
    unfold restore_discovered_devices async_expire_devices at hmem
    simp only at hmem
    have hmem2 := mem_removeall_subset _ _ _ hmem
    exact restored_infos_connectable sc history a r hmem2
  · intro hnd a dev adv t hmem hts
    have hkeys : (((restored_infos sc history)).map Prod.fst).Nodup := by
      unfold restored_infos
      rw [List.map_map]
      exact hnd
    have hm2 : (a, restored_record sc a dev adv t) ∈ restored_infos sc history := by
      unfold restored_infos
      refine List.mem_map.mpr ⟨(a, dev, adv), hmem, ?_⟩
      simp only
      rw [hts]
      rfl
    have hlook : dlookup (restored_infos sc history) a =
        some (restored_record sc a dev adv t) :=
      dlookup_of_mem_nodup hkeys hm2
    have hchar := dlookup_async_expire
      { sc with infos := restored_infos sc history } now a
      (restored_record sc a dev adv t) hkeys hlook
    constructor
    · intro hle
      refine ⟨restored_record sc a dev adv t, ?_, rfl⟩
      show dlookup (async_expire_devices
        { sc with infos := restored_infos sc history } now).infos a = _
      rw [hchar]
      split_ifs with hc
      · exact absurd hc (not_lt.mpr hle)
      · rfl
    · intro hgt
      show dlookup (async_expire_devices
        { sc with infos := restored_infos sc history } now).infos a = none
      rw [hchar]
      split_ifs with hc
      · rfl
      · exact absurd hgt hc

/-! ## Counterexamples and witnesses -/

/-- C1 counterexample: with previous service data `{u1: 01}` and incoming
`{u1: 01, u2: 02}` (non-empty, distinct container), the previous map IS a
non-strict subset of the incoming one, yet the stored map is the union, not
the previous map as the claim predicts — the code tests the opposite subset
direction. -/
theorem claim_C1_counterexample :
    c1_event.service_data ≠ [] ∧ c1_event.sd_is_prev = false ∧
    dict_subset c1_event.service_data c1_prev.service_data = true ∧
    (dlookup (async_on_advertisement c1_sc c1_event).infos "AA").map
      SvcInfo.service_data ≠ some c1_prev.service_data ∧
    (dlookup (async_on_advertisement c1_sc c1_event).infos "AA").map
      SvcInfo.service_data ≠
      some (spec_claimed_map_rule c1_prev.service_data c1_event.service_data) := by
  decide

theorem claim_C1_witness :
    dlookup c1_sc.infos c1_event.address = some c1_prev ∧
    dlookup (async_on_advertisement c1_sc c1_event).infos c1_event.address =
      some c1_res ∧
    dlookup c1_res.service_data "u2" =
      opt_or (dlookup c1_event.service_data "u2")
        (dlookup c1_prev.service_data "u2") :=
  ⟨by decide, by decide,
   ((claim_C1 c1_sc c1_event c1_prev c1_res (by decide) (by decide)).1.1
     ⟨by decide, rfl⟩).2 (by decide) "u2"⟩

/-- C2 counterexample: the previous device name is the empty string (empty
but not None) and the incoming name is None; the claim predicts the address
fallback `"AA"`, but the code keeps the empty previous name because it only
tests `is not None`. -/
theorem claim_C2_counterexample :
    c2_prev.device.name = some "" ∧ c2_event.local_name = none ∧
    spec_claimed_name_rule c2_prev.device.name c2_event.local_name
      c2_event.name_is_prev c2_event.address = "AA" ∧
    (dlookup (async_on_advertisement c2_sc c2_event).infos "AA").map
      SvcInfo.name = some "" ∧
    (dlookup (async_on_advertisement c2_sc c2_event).infos "AA").map
      SvcInfo.name ≠
      some (spec_claimed_name_rule c2_prev.device.name c2_event.local_name
        c2_event.name_is_prev c2_event.address) := by
  decide

theorem claim_C2_witness :
    dlookup c2w_sc.infos c2w_event.address = some c2w_prev ∧
    dlookup (async_on_advertisement c2w_sc c2w_event).infos c2w_event.address =
      some c2w_res ∧
    c2w_res.name = "N" :=
  ⟨by decide, by decide,
   ((claim_C2 c2w_sc c2w_event c2w_prev c2w_res (by decide) (by decide)).1 "N"
     (by decide)).1 (Or.inr (Or.inl (by decide)))⟩

theorem claim_C3_witness :
    dlookup c3_sc.infos c3_event.address = some c3_prev ∧
    dlookup (async_on_advertisement c3_sc c3_event).infos c3_event.address =
      some c3_res ∧
    "a" ∈ c3_res.service_uuids ∧
    dlookup c3_res.service_data "u1" = some [1] :=
  ⟨by decide, by decide,
   (claim_C3 c3_sc c3_event c3_prev c3_res (by decide) (by decide)
     (by
       unfold flags_consistent
       rw [show dlookup c3_sc.infos c3_event.address = some c3_prev from
         by decide]
       exact ⟨fun h => absurd h (by decide), fun h => absurd h (by decide),
         fun h => absurd h (by decide)⟩)).1 "a" (by decide),
   ((claim_C3 c3_sc c3_event c3_prev c3_res (by decide) (by decide)
     (by
       unfold flags_consistent
       rw [show dlookup c3_sc.infos c3_event.address = some c3_prev from
         by decide]
       exact ⟨fun h => absurd h (by decide), fun h => absurd h (by decide),
         fun h => absurd h (by decide)⟩)).2.1 "u1" [1] (by decide)).1
     (by decide)⟩

/-- C4 counterexample: applying the same advertisement (with empty-string
local name) twice to an empty index changes the stored name from the address
fallback `"AA"` after the first merge to `""` after the second — a
non-timestamp field differs, refuting unrestricted merge idempotence. -/
theorem claim_C4_counterexample :
    (dlookup (async_on_advertisement c4_sc c4_event).infos "AA").map
      SvcInfo.name = some "AA" ∧
    (dlookup (async_on_advertisement (async_on_advertisement c4_sc c4_event)
      c4_event).infos "AA").map SvcInfo.name = some "" ∧
    some ("AA" : String) ≠ some "" := by
  decide

theorem claim_C4_witness :
    dlookup (async_on_advertisement c4w_sc c4w_event).infos c4w_event.address =
      some c4w_r1 ∧
    dlookup (async_on_advertisement (async_on_advertisement c4w_sc c4w_event)
      c4w_event).infos c4w_event.address = some c4w_r2 ∧
    c4w_r2 = { c4w_r1 with time := c4w_event.time } :=
  ⟨by decide, by decide,
   claim_C4 c4w_sc c4w_event c4w_event rfl rfl rfl rfl rfl rfl rfl rfl
     (by
       unfold flags_consistent
       rw [show dlookup c4w_sc.infos c4w_event.address = none from by decide]
       trivial)
     (by
       unfold flags_consistent
       rw [show dlookup (async_on_advertisement c4w_sc c4w_event).infos
           c4w_event.address = some c4w_r1 from by decide]
       exact ⟨fun h => absurd h (by decide), fun h => absurd h (by decide),
         fun h => absurd h (by decide)⟩)
     (by decide) (by decide) (by decide) (by decide)
     c4w_r1 c4w_r2 (by decide) (by decide)⟩

theorem claim_C5_witness :
    discovered_device_advertisement_data_from_dict
      (to_raw_store_dict
        (discovered_device_advertisement_data_to_dict c5_data 5)) 5 =
      some c5_data :=
  claim_C5 c5_data 5 (by decide) (by decide)

theorem claim_C6_witness :
    dlookup (async_expire_devices c6_sc 100).infos "AA" = some c6_rec ∧
    dlookup (async_expire_devices c6_sc 101).infos "AA" = none ∧
    dlookup (expire_scanner_data 100 c6_d).discovered_device_timestamps "AA" =
      some 0 ∧
    dlookup (expire_scanner_data 101 c6_d).discovered_device_timestamps "AA" =
      none :=
  ⟨(claim_C6.1 c6_sc 100 "AA" c6_rec (by decide) (by decide)).1
     (by norm_num [c6_rec, c6_sc]),
   (claim_C6.1 c6_sc 101 "AA" c6_rec (by decide) (by decide)).2
     (by norm_num [c6_rec, c6_sc]),
   (claim_C6.2 c6_d 100 "AA" 0 (by decide) (by norm_num [c6_d])
     (by decide)).1 (by norm_num [c6_d]),
   (claim_C6.2 c6_d 101 "AA" 0 (by decide) (by norm_num [c6_d])
     (by decide)).2 (by norm_num [c6_d])⟩

theorem claim_C7_witness :
    dlookup (expire_scanner_data 1000 c7_future_d).discovered_device_timestamps
      "AA" = none ∧
    dlookup
      (expire_scanner_data 1000 c7_future_d).discovered_device_advertisement_datas
      "AA" = none ∧
    dlookup (expire_scanner_data 1000 c7_future_d).discovered_device_raw
      "AA" = none :=
  ⟨((claim_C7.2 c7_future_d 1000 "AA" 1001000 (by decide) (by decide)).1
     (Or.inr (by norm_num))).1,
   ((claim_C7.2 c7_future_d 1000 "AA" 1001000 (by decide) (by decide)).1
     (Or.inr (by norm_num))).2.1,
   ((claim_C7.2 c7_future_d 1000 "AA" 1001000 (by decide) (by decide)).1
     (Or.inr (by norm_num))).2.2⟩

theorem claim_C8_witness :
    discovered_device_advertisement_data_from_dict c8_raw 0 = none :=
  (claim_C8 c8_raw 0).mpr (Or.inl rfl)

theorem claim_C9_witness :
    GateBalanced c9_w ∧ (0 : Int) ≤ c9_s.connecting ∧
    (gate_run c9_s c9_w).connecting = c9_s.connecting :=
  ⟨GateBalanced.wrap (GateBalanced.wrap GateBalanced.nil GateBalanced.nil)
     GateBalanced.nil,
   by decide,
   (claim_C9 c9_w c9_s
     (GateBalanced.wrap (GateBalanced.wrap GateBalanced.nil GateBalanced.nil)
       GateBalanced.nil)
     (by decide)).1⟩

theorem claim_C10_witness :
    (restore_discovered_devices c10_sc c10_history 1000).expire_seconds =
      c10_sc.expire_seconds ∧
    dlookup (restore_discovered_devices c10_sc c10_history 1000).infos "BB" =
      none :=
  ⟨(claim_C10 c10_sc c10_history 1000).2.1.2,
   (((claim_C10 c10_sc c10_history 1000).2.2.2 (by decide)) "BB" c10_dev
     c10_adv 0 (by decide) (by decide)).2 (by norm_num [c10_sc])⟩
